import Mathlib

/-! Verification of the Docker resource migration tool: a shallow embedding of
the plan builder, the execution engine, the volume stream synchronizer's
completion logic, the inspection translator and the ssh/docker command
builders, with theorems settling the specification's claims about them. -/

namespace DockerCopy

deriving instance DecidableEq for Except

/-! ### Shared data model (shared/types) -/

/-- Host configuration: all fields optional, as in the shared types. -/
structure HostConfig where
  host : Option String
  user : Option String
  port : Option Nat
  identityFile : Option String
deriving DecidableEq, Repr

/-- JavaScript truthiness of an optional string field (`undefined` and the
empty string are falsy). -/
def truthyStr : Option String → Bool
  | none => false
  | some s => s != ""

/-- JavaScript truthiness of an optional number field (`undefined` and `0` are
falsy). -/
def truthyNat : Option Nat → Bool
  | none => false
  | some n => n != 0

/-- The selected resource names (MigrationSelection). -/
structure MigrationSelection where
  containers : List String
  volumes : List String
  networks : List String
deriving DecidableEq, Repr

/-- The migration options (MigrationOptions). -/
structure MigrationOptions where
  includeContainers : Bool
  includeVolumes : Bool
  includeNetworks : Bool
  dryRun : Bool
deriving DecidableEq, Repr

/-- The migration result (MigrationResult). -/
structure MigrationResult where
  ok : Bool
  message : String
  logs : List String
deriving DecidableEq, Repr

/-! ### ssh.ts -/

/-- `isRemoteHost`: `Boolean(host.host && host.user)`. -/
def isRemoteHost (host : HostConfig) : Bool :=
  truthyStr host.host && truthyStr host.user

/-- `buildSshArgs`: throws when host or user is missing, otherwise builds the
ssh argument list.  The thrown error is modelled as `Except.error`. -/
def buildSshArgs (host : HostConfig) (remoteCommand : String) : Except String (List String) :=
  if !truthyStr host.host || !truthyStr host.user then
    .error "Remote host and user are required for SSH commands."
  else
    .ok ((if truthyNat host.port then ["-p", toString (host.port.getD 0)] else [])
      ++ (if truthyStr host.identityFile then ["-i", host.identityFile.getD ""] else [])
      ++ [host.user.getD "" ++ "@" ++ host.host.getD "", "--", remoteCommand])

/-! ### migration.ts: command-string builders -/

/-- `DEFAULT_NETWORKS = new Set(['bridge', 'host', 'none'])`. -/
def DEFAULT_NETWORKS : List String := ["bridge", "host", "none"]

/-- `isDefaultNetwork`. -/
def isDefaultNetwork (name : String) : Bool := DEFAULT_NETWORKS.contains name

/-- One step of `value.replace(/'/g, ...)`: a single quote becomes the
four-character sequence quote backslash quote quote, every other character is
kept; the replacement is character-wise because the pattern is one
character. -/
def escapeQuoteChar (c : Char) : List Char :=
  if c = '\'' then ['\'', '\\', '\'', '\''] else [c]

/-- `shellEscape`: wrap in single quotes, replacing every embedded single
quote by the four-character sequence quote backslash quote quote. -/
def shellEscape (value : String) : String :=
  "'" ++ String.mk (value.data.flatMap escapeQuoteChar) ++ "'"

/-- `buildDockerCommand`: shell-escapes every argument and joins them. -/
def buildDockerCommand (args : List String) : String :=
  "docker " ++ String.intercalate " " (args.map shellEscape)

/-- `buildDockerTarArgs`: the packaging helper container's argument list. -/
def buildDockerTarArgs (volume : String) : List String :=
  ["run", "--rm", "-v", volume ++ ":/from", "alpine", "sh", "-c",
   "cd /from && tar -cpf - ."]

/-- The first glob passed to `rm -rf` in the unpacking shell command. -/
def untarStarPattern : String := "*"

/-- The second glob passed to `rm -rf` in the unpacking shell command. -/
def untarDotPattern : String := ".??*"

/-- The shell command run by the unpacking helper container: clear the
destination mount, then extract the streamed archive. -/
def untarShell : String :=
  "cd /to && rm -rf ./" ++ untarStarPattern ++ " ./" ++ untarDotPattern
    ++ " && tar -xpf -"

/-- `buildDockerUntarArgs`. -/
def buildDockerUntarArgs (volume : String) : List String :=
  ["run", "--rm", "-i", "-v", volume ++ ":/to", "alpine", "sh", "-c", untarShell]

/-- `buildDockerUntarCommand`. -/
def buildDockerUntarCommand (volume : String) : String :=
  buildDockerCommand (buildDockerUntarArgs volume)

/-! ### POSIX sh glob matching (semantics of the `rm -rf` patterns)

The unpacking command's effect on the destination directory is decided by the
shell's pathname expansion; `globMatch` is the standard `*`/`?`/literal glob
matcher and `globMatchTop` adds the rule that a leading dot in a file name is
matched only by a literal leading dot in the pattern. -/

/-- Glob matching over character lists: `*` matches any (possibly empty)
sequence, `?` matches exactly one character, anything else matches itself. -/
def globMatch : List Char → List Char → Bool
  | [], s => s.isEmpty
  | '*' :: ps, s =>
    globMatch ps s ||
      (match s with
       | [] => false
       | _ :: t => globMatch ('*' :: ps) t)
  | '?' :: ps, s =>
    (match s with
     | [] => false
     | _ :: t => globMatch ps t)
  | p :: ps, s =>
    (match s with
     | [] => false
     | c :: t => p == c && globMatch ps t)
termination_by ps s => (s.length, ps.length)

/-- The leading-dot rule of pathname expansion: a file name starting with a
dot is only matched by a pattern starting with a literal dot. -/
def leadingDotOk (pat name : List Char) : Bool :=
  match name with
  | [] => true
  | c :: _ =>
    if c = '.' then
      match pat with
      | [] => false
      | p :: _ => p == '.'
    else true

/-- Glob matching of a whole file name, leading-dot rule included. -/
def globMatchTop (pat name : String) : Bool :=
  leadingDotOk pat.data name.data && globMatch pat.data name.data

/-- Whether the unpacking command's `rm -rf ./* ./.??*` removes the directory
entry `name` from the destination mount. -/
def untarClears (name : String) : Bool :=
  globMatchTop untarStarPattern name || globMatchTop untarDotPattern name

/-! ### runPipedCommands (the volume stream synchronizer's join logic) -/

/-- The `details` string of `runPipedCommands`' failure message: the two
trimmed stderr captures, empty ones filtered out, joined by newlines. -/
def syncFailureDetails (sourceError targetError : String) : String :=
  String.intercalate "\n"
    (([sourceError.trim, targetError.trim]).filter (fun s => s != ""))

/-- The suffix appended to the failure message: a newline and the details,
or nothing when the details are empty. -/
def syncFailureTail (sourceError targetError : String) : String :=
  if syncFailureDetails sourceError targetError != "" then
    "\n" ++ syncFailureDetails sourceError targetError
  else ""

/-- The combined rejection message of `runPipedCommands`. -/
def syncFailureMessage (sourceExit targetExit : Int) (sourceError targetError : String) :
    String :=
  "Helper sync failed (source=" ++ toString sourceExit ++ ", target="
    ++ toString targetExit ++ ")." ++ syncFailureTail sourceError targetError

/-- The completion check of `runPipedCommands`, applied once both spawned
processes have closed with exit codes `sourceExit`/`targetExit` and stderr
accumulations `sourceError`/`targetError`: resolve only when both exited
zero, otherwise reject with the combined error message. -/
def checkComplete (sourceExit targetExit : Int) (sourceError targetError : String) :
    Except String Unit :=
  if sourceExit != 0 || targetExit != 0 then
    .error (syncFailureMessage sourceExit targetExit sourceError targetError)
  else
    .ok ()

/-! ### docker.ts: remote command strings built without quoting -/

/-- `runDockerCommand`'s remote command string: `['docker', ...args].join(' ')`
with no shell escaping. -/
def runDockerCommandString (args : List String) : String :=
  String.intercalate " " ("docker" :: args)

/-- The remote command string of `ensureNetworkOnTarget`. -/
def ensureNetworkOnTargetCommand (name : String) : String :=
  "docker network create " ++ name

/-- The remote command string of `ensureVolumeOnTarget`. -/
def ensureVolumeOnTargetCommand (name : String) : String :=
  "docker volume create " ++ name

/-- `needle` occurs contiguously inside `hay` (decidable substring test). -/
def infixOf (needle : List Char) : List Char → Bool
  | [] => needle.isEmpty
  | c :: t => needle.isPrefixOf (c :: t) || infixOf needle t

/-- Substring test on strings. -/
def strContains (needle hay : String) : Bool := infixOf needle.data hay.data

/-! ### Inspection translator (migration.ts) -/

/-- `isWindowsPath`: the regex `^[a-zA-Z]:\\` or an embedded backslash
(`value.includes`). -/
def isWindowsPath (value : String) : Bool :=
  (match value.data with
   | c1 :: c2 :: c3 :: _ => c1.isAlpha && c2 == ':' && c3 == '\\'
   | _ => false) || value.data.contains '\\'

/-- Result of `normalizeBindMount`: `{ bind?: string; reason?: string }`. -/
structure NormalizedBind where
  bind : Option String
  reason : Option String
deriving DecidableEq, Repr

/-- `normalizeBindMount`. -/
def normalizeBindMount (bind : String) : NormalizedBind :=
  if isWindowsPath bind then { bind := none, reason := some "Windows host path detected" }
  else { bind := some bind, reason := none }

/-- A disallowed character is replaced (run-wise) by `sanitizeImageTag`. -/
def sanitizeAllowed (c : Char) : Bool :=
  c.isLower || c.isDigit || c == '_' || c == '.' || c == '-'

/-- Collapse each maximal run of disallowed characters to a single dash; the
Boolean flag records whether the previous character was part of such a run. -/
def sanitizeChars : List Char → Bool → List Char
  | [], _ => []
  | c :: rest, inRun =>
    if sanitizeAllowed c then c :: sanitizeChars rest false
    else if inRun then sanitizeChars rest true
    else '-' :: sanitizeChars rest true

/-- `sanitizeImageTag`: lower-case, then replace every run of characters
outside `[a-z0-9_.-]` by one dash. -/
def sanitizeImageTag (value : String) : String :=
  String.mk (sanitizeChars value.toLower.data false)

/-- `RestartPolicy` field of an inspected HostConfig. -/
structure RestartPolicyInfo where
  Name : Option String
  MaximumRetryCount : Option Nat
deriving DecidableEq, Repr

/-- One entry of a `PortBindings` array. -/
structure PortBindingInfo where
  HostIp : Option String
  HostPort : Option String
deriving DecidableEq, Repr

/-- `Config` section of a container inspection. -/
structure ContainerConfigInfo where
  Env : Option (List String)
  Cmd : Option (List String)
  Entrypoint : Option (List String)
  WorkingDir : Option String
  User : Option String
deriving DecidableEq, Repr

/-- `HostConfig` section of a container inspection; `PortBindings` is the
record's entries in object order. -/
structure ContainerHostConfigInfo where
  Binds : Option (List String)
  PortBindings : Option (List (String × List PortBindingInfo))
  RestartPolicy : Option RestartPolicyInfo
  AutoRemove : Option Bool
deriving DecidableEq, Repr

/-- `State` section of a container inspection. -/
structure ContainerStateInfo where
  Running : Option Bool
  Status : Option String
deriving DecidableEq, Repr

/-- The inspected container configuration (`ContainerInspect`);
`NetworkSettingsNetworks` holds the keys of `NetworkSettings.Networks` in
object order (only the keys are consumed). -/
structure ContainerInspect where
  Name : Option String
  Config : Option ContainerConfigInfo
  HostConfig : Option ContainerHostConfigInfo
  NetworkSettingsNetworks : Option (List String)
  State : Option ContainerStateInfo
deriving DecidableEq, Repr

/-- The run/create choice and the container name (the first pushes of
`buildContainerRunArgs`). -/
def containerBaseArgs (name : String) (inspect : ContainerInspect) : List String :=
  let isRunning := (inspect.State.bind (·.Running)).getD false
  [if isRunning then "run" else "create"]
    ++ (if isRunning then ["-d"] else []) ++ ["--name", name]

/-- The environment-variable flags. -/
def containerEnvArgs (inspect : ContainerInspect) : List String :=
  ((inspect.Config.bind (·.Env)).getD []).flatMap (fun entry => ["-e", entry])

/-- The bind-mount loop: re-apply each normalized bind as a `-v` flag and
collect the skipped originals, both in traversal order. -/
def buildBindArgs : List String → List String × List String
  | [] => ([], [])
  | b :: rest =>
    let acc := buildBindArgs rest
    match (normalizeBindMount b).bind with
    | some normalized => (["-v", normalized] ++ acc.1, acc.2)
    | none => (acc.1, b :: acc.2)

/-- The published-port flags. -/
def containerPortArgs (inspect : ContainerInspect) : List String :=
  ((inspect.HostConfig.bind (·.PortBindings)).getD []).flatMap (fun p =>
      if p.2.isEmpty then []
      else p.2.flatMap (fun binding =>
        let hostIp := match binding.HostIp with
          | some ip => if ip != "" then ip ++ ":" else ""
          | none => ""
        let hostPort := match binding.HostPort with
          | some hp => if hp != "" then hp ++ ":" else ""
          | none => ""
        ["-p", hostIp ++ hostPort ++ p.1]))

/-- The restart-policy flag. -/
def containerRestartArgs (inspect : ContainerInspect) : List String :=
  match inspect.HostConfig.bind (·.RestartPolicy) with
  | none => []
  | some restart =>
    match restart.Name with
    | none => []
    | some rn =>
      if rn != "" && rn != "no" then
        let policy := if rn == "on-failure" && truthyNat restart.MaximumRetryCount then
            "on-failure:" ++ toString (restart.MaximumRetryCount.getD 0)
          else rn
        ["--restart=" ++ policy]
      else []

/-- The single non-default network flag. -/
def containerNetworkArgs (inspect : ContainerInspect) : List String :=
  match (inspect.NetworkSettingsNetworks.getD []).find? (fun n => !isDefaultNetwork n) with
  | some n => ["--network", n]
  | none => []

/-- Working directory, user and entrypoint flags. -/
def containerMiscArgs (inspect : ContainerInspect) : List String :=
  let wd := inspect.Config.bind (·.WorkingDir)
  let wdArgs := if truthyStr wd then ["-w", wd.getD ""] else []
  let usr := inspect.Config.bind (·.User)
  let userArgs := if truthyStr usr then ["-u", usr.getD ""] else []
  let epArgs := match inspect.Config.bind (·.Entrypoint) with
    | some ep => if ep.isEmpty then [] else ["--entrypoint", String.intercalate " " ep]
    | none => []
  wdArgs ++ userArgs ++ epArgs

/-- The image reference and the trailing original command arguments. -/
def containerTailArgs (imageTag : String) (inspect : ContainerInspect) : List String :=
  [imageTag] ++ (match inspect.Config.bind (·.Cmd) with
    | some cmd => if cmd.isEmpty then [] else cmd
    | none => [])

/-- `buildContainerRunArgs`: derive the creation argument list and the list of
skipped bind mounts from an inspected configuration; the sections are
concatenated in the source's push order. -/
def buildContainerRunArgs (name : String) (inspect : ContainerInspect) (imageTag : String) :
    List String × List String :=
  let bindsAcc := buildBindArgs ((inspect.HostConfig.bind (·.Binds)).getD [])
  (containerBaseArgs name inspect ++ containerEnvArgs inspect ++ bindsAcc.1
    ++ containerPortArgs inspect ++ containerRestartArgs inspect
    ++ containerNetworkArgs inspect ++ containerMiscArgs inspect
    ++ containerTailArgs imageTag inspect, bindsAcc.2)

/-! ### Plan builder (createMigrationPlan) -/

/-- Execution site of a plan step. -/
inductive RunSite where
  | source
  | target
  | localSite
deriving DecidableEq, Repr

/-- One plan step (`MigrationPlanStep`). -/
structure MigrationPlanStep where
  id : String
  label : String
  command : Option String
  runOn : Option RunSite
deriving DecidableEq, Repr

/-- A migration plan (`MigrationPlan`). -/
structure MigrationPlan where
  steps : List MigrationPlanStep
  warnings : List String
deriving DecidableEq, Repr

/-- `createStep` with the generated id made explicit: in the source the id is
the string `Date.now()` dash a `Math.random()`-derived suffix, i.e. it is
drawn from ambient clock/randomness state, modelled here as the id stream
passed to `createMigrationPlan`. -/
def createStep (id label : String) (command : Option String) (runOn : Option RunSite) :
    MigrationPlanStep :=
  { id := id, label := label, command := command, runOn := runOn }

/-- The network section of the plan: steps, warnings and the next id index. -/
def planNetworks (gen : Nat → String) : List String → Nat →
    List MigrationPlanStep × List String × Nat
  | [], k => ([], [], k)
  | network :: rest, k =>
    if isDefaultNetwork network then
      let (s, w, k') := planNetworks gen rest k
      (s, ("Skipping default network \"" ++ network
            ++ "\". Predefined Docker networks are not created manually.") :: w, k')
    else
      let step := createStep (gen k) ("Create network " ++ network ++ " on target")
        (some ("docker network create " ++ network)) (some .target)
      let (s, w, k') := planNetworks gen rest (k + 1)
      (step :: s, w, k')

/-- The volume section of the plan. -/
def planVolumes (gen : Nat → String) : List String → Nat →
    List MigrationPlanStep × Nat
  | [], k => ([], k)
  | volume :: rest, k =>
    let ensure := createStep (gen k) ("Ensure volume " ++ volume ++ " exists on target")
      (some ("docker volume create " ++ volume)) (some .target)
    let sync := createStep (gen (k + 1))
      ("Sync volume " ++ volume ++ " data to target (helper container)")
      (some ("docker run --rm -v " ++ volume
        ++ ":/from alpine sh -c \"tar -cpf - -C /from .\" | ssh <target> docker run --rm -i -v "
        ++ volume ++ ":/to alpine sh -c \"tar -xpf - -C /to\"")) (some .localSite)
    let (s, k') := planVolumes gen rest (k + 2)
    (ensure :: sync :: s, k')

/-- The container section of the plan: five advisory steps per container. -/
def planContainers (gen : Nat → String) : List String → Nat →
    List MigrationPlanStep × Nat
  | [], k => ([], k)
  | container :: rest, k =>
    let s1 := createStep (gen k) ("Commit container " ++ container ++ " to an image on source")
      (some ("docker commit " ++ container ++ " " ++ container ++ ":migrated")) (some .source)
    let s2 := createStep (gen (k + 1)) ("Save image " ++ container ++ ":migrated to tar")
      (some ("docker save " ++ container ++ ":migrated -o " ++ container ++ "-image.tar"))
      (some .source)
    let s3 := createStep (gen (k + 2)) "Transfer image tar to target"
      (some ("rsync -az -e \"ssh\" " ++ container ++ "-image.tar <targetHost>:~/"))
      (some .localSite)
    let s4 := createStep (gen (k + 3)) "Load image on target"
      (some ("docker load -i ~/" ++ container ++ "-image.tar")) (some .target)
    let s5 := createStep (gen (k + 4)) ("Recreate container " ++ container ++ " on target")
      (some ("docker run --name " ++ container ++ " " ++ container ++ ":migrated"))
      (some .target)
    let (s, k') := planContainers gen rest (k + 5)
    (s1 :: s2 :: s3 :: s4 :: s5 :: s, k')

/-- The guarded network section of the plan:
`if (options.includeNetworks && selection.networks.length)`. -/
def planNetworksSection (gen : Nat → String) (selection : MigrationSelection)
    (options : MigrationOptions) : List MigrationPlanStep × List String × Nat :=
  if options.includeNetworks && !selection.networks.isEmpty then
    planNetworks gen selection.networks 0
  else ([], [], 0)

/-- The guarded volume section of the plan, with its single advisory
warning. -/
def planVolumesSection (gen : Nat → String) (selection : MigrationSelection)
    (options : MigrationOptions) (k1 : Nat) : List MigrationPlanStep × List String × Nat :=
  if options.includeVolumes && !selection.volumes.isEmpty then
    ((planVolumes gen selection.volumes k1).1,
     ["Volume sync uses a helper container (alpine) and does not require sudo."],
     (planVolumes gen selection.volumes k1).2)
  else ([], [], k1)

/-- The guarded container section of the plan, with its single advisory
warning. -/
def planContainersSection (gen : Nat → String) (selection : MigrationSelection)
    (options : MigrationOptions) (k2 : Nat) : List MigrationPlanStep × List String × Nat :=
  if options.includeContainers && !selection.containers.isEmpty then
    ((planContainers gen selection.containers k2).1,
     ["Containers are recreated with a best-effort config. Review runtime settings after migration."],
     (planContainers gen selection.containers k2).2)
  else ([], [], k2)

/-- `createMigrationPlan` with the ambient id source (`Date.now()` and
`Math.random()` inside `createStep`) made an explicit stream `gen`: the k-th
call of `createStep` uses id `gen k`.  `source` and `target` are accepted and
ignored exactly as in the source. -/
def createMigrationPlan (gen : Nat → String) (_source _target : HostConfig)
    (selection : MigrationSelection) (options : MigrationOptions) : MigrationPlan :=
  let n := planNetworksSection gen selection options
  let v := planVolumesSection gen selection options n.2.2
  let c := planContainersSection gen selection options v.2.2
  let steps := n.1 ++ v.1 ++ c.1
  let warnings := n.2.1 ++ v.2.1 ++ c.2.1
  { steps := steps,
    warnings := if steps.isEmpty then
        warnings ++ ["Select at least one container, volume, or network to migrate."]
      else warnings }

/-! ### Execution engine (runMigration)

The engine's side effects are made explicit: external commands are an oracle
(`Env`) that either resolves or rejects, observable actions are recorded in an
event trace, and a JavaScript exception propagating out of `runMigration` is
the `Except.error` case of its result. -/

/-- Observable external actions of one execution, in trace order. -/
inductive Event where
  | progress (current total : Nat) (message : String)
  | ensureNetwork (name : String)
  | ensureVolume (name : String)
  | syncVolume (name : String)
  | inspectContainersCall (names : List String)
  | commitContainer (name : String)
  | saveImage (name : String)
  | transferImage (name : String)
  | loadImage (name : String)
  | createContainer (name : String)
  | cleanupLocal (p : String)
  | cleanupRemote (p : String)
  | inspectVolumesCall (names : List String)
deriving DecidableEq, Repr

/-- Mutable state of one execution: the progress counter, the log and the
event trace. -/
structure St where
  current : Nat
  logs : List String
  events : List Event
deriving DecidableEq, Repr

/-- Outcomes of the engine's external calls, supplied as an oracle: each
operation either resolves or rejects with an error message.  `now` models
`Date.now()` and `tmpdir` models `os.tmpdir()`. -/
structure Env where
  ensureNetwork : String → Except String Unit
  ensureVolume : String → Except String Unit
  syncVolume : String → Except String Unit
  inspectOutput : List String → Except String String
  decodeInspect : String → Except String (List ContainerInspect)
  commitContainer : String → Except String Unit
  saveImage : String → Except String Unit
  transferImage : String → Except String Unit
  loadImage : String → Except String Unit
  createContainer : List String → Except String Unit
  inspectVolumesOutput : List String → Except String String
  now : Nat
  tmpdir : String

/-- `inspectContainers` (docker.ts): an empty name list short-circuits to the
empty string without running any command. -/
def inspectContainers (env : Env) (names : List String) : Except String String :=
  if names.isEmpty then .ok "" else env.inspectOutput names

/-- `inspectVolumes` (docker.ts). -/
def inspectVolumes (env : Env) (names : List String) : Except String String :=
  if names.isEmpty then .ok "" else env.inspectVolumesOutput names

/-- `JSON.parse` of the JavaScript runtime as applied to the inspection
output: the empty string is never valid JSON, so parsing it throws; parsing a
nonempty string is delegated to the environment's decoder. -/
def jsonParseInspect (env : Env) (s : String) : Except String (List ContainerInspect) :=
  if s = "" then .error "Unexpected end of JSON input" else env.decodeInspect s

/-- `name.replace(/^\//, '')`. -/
def stripLeadingSlash (s : String) : String :=
  if s.startsWith "/" then s.drop 1 else s

/-- The `inspectByName` map: entries are keyed by the stripped `Name`, falsy
keys are filtered out, and a JS `Map` keeps the last entry for a repeated
key. -/
def inspectLookup (items : List ContainerInspect) (name : String) : Option ContainerInspect :=
  let entries := (items.map (fun it => (it.Name.map stripLeadingSlash, it))).filter
    (fun p => truthyStr p.1)
  ((entries.filter (fun p => p.1 == some name)).getLast?).map (·.2)

/-- `reportProgress`: bump the counter and send one ProgressUpdate whose
total is the precomputed step count clamped up to at least 1. -/
def reportProgress (totalSteps : Nat) (message : String) (st : St) : St :=
  { st with current := st.current + 1,
            events := st.events ++ [.progress (st.current + 1) (max totalSteps 1) message] }

/-- `logs.push(m)`. -/
def addLog (m : String) (st : St) : St := { st with logs := st.logs ++ [m] }

/-- Record one external action in the trace. -/
def emit (e : Event) (st : St) : St := { st with events := st.events ++ [e] }

/-- How a phase ends: fall through, `return` a result, or throw. -/
inductive Exit where
  | normal
  | returned (r : MigrationResult)
  | thrown (e : String)
deriving DecidableEq, Repr

/-- `totalSteps` as computed once at the start of `runMigration`. -/
def migrationTotalSteps (selection : MigrationSelection) (options : MigrationOptions) : Nat :=
  (if options.includeNetworks then
    (selection.networks.filter (fun n => !isDefaultNetwork n)).length else 0)
  + (if options.includeVolumes then selection.volumes.length else 0)
  + (if options.includeContainers then selection.containers.length * 5 else 0)

/-- The network phase loop of `runMigration`. -/
def networkPhase (env : Env) (totalSteps : Nat) : List String → St → St × Exit
  | [], st => (st, .normal)
  | network :: rest, st =>
    if isDefaultNetwork network then
      networkPhase env totalSteps rest
        (addLog ("Skipping default network " ++ network ++ " (predefined by Docker).") st)
    else
      let st := reportProgress totalSteps ("Creating network " ++ network ++ " on target") st
      let st := addLog ("Creating network " ++ network ++ " on target") st
      let st := emit (.ensureNetwork network) st
      match env.ensureNetwork network with
      | .ok _ => networkPhase env totalSteps rest st
      | .error e => (st, .thrown e)

/-- The volume phase loop of `runMigration` (after the local-source guard). -/
def volumePhase (env : Env) (totalSteps : Nat) : List String → St → St × Exit
  | [], st => (st, .normal)
  | volume :: rest, st =>
    let st := reportProgress totalSteps ("Syncing volume " ++ volume ++ " to target") st
    let st := addLog ("Preparing volume " ++ volume ++ " on target") st
    let st := emit (.ensureVolume volume) st
    match env.ensureVolume volume with
    | .error e => (st, .thrown e)
    | .ok _ =>
      let st := addLog "Syncing volume data via helper container stream." st
      let st := emit (.syncVolume volume) st
      match env.syncVolume volume with
      | .error e => (st, .thrown e)
      | .ok _ => volumePhase env totalSteps rest st

/-- The per-container loop of the container phase. -/
def containerSteps (env : Env) (target : HostConfig) (totalSteps : Nat)
    (lookup : String → Option ContainerInspect) : List String → St → St × Exit
  | [], st => (st, .normal)
  | container :: rest, st =>
    let st := reportProgress totalSteps ("Committing " ++ container) st
    match lookup container with
    | none =>
      containerSteps env target totalSteps lookup rest
        (addLog ("Skipping " ++ container ++ ": unable to read container configuration.") st)
    | some inspect =>
      let imageTag := "docker-copy/" ++ sanitizeImageTag container ++ ":migrated"
      let tarName := sanitizeImageTag container ++ "-" ++ toString env.now ++ ".tar"
      let localTar := env.tmpdir ++ "/" ++ tarName
      let targetTar := if isRemoteHost target then "/tmp/" ++ tarName else localTar
      let st := addLog ("Committing " ++ container ++ " to " ++ imageTag) st
      let st := emit (.commitContainer container) st
      match env.commitContainer container with
      | .error e => (st, .thrown e)
      | .ok _ =>
      let st := reportProgress totalSteps ("Saving image " ++ container) st
      let st := addLog ("Saving " ++ imageTag ++ " to " ++ localTar) st
      let st := emit (.saveImage container) st
      match env.saveImage container with
      | .error e => (st, .thrown e)
      | .ok _ =>
      let st := reportProgress totalSteps ("Transferring image " ++ container) st
      let st := addLog "Transferring image tar to target" st
      let st := emit (.transferImage container) st
      match env.transferImage container with
      | .error e => (st, .thrown e)
      | .ok _ =>
      let st := reportProgress totalSteps ("Loading image " ++ container ++ " on target") st
      let st := addLog ("Loading image " ++ imageTag ++ " on target") st
      let st := emit (.loadImage container) st
      match env.loadImage container with
      | .error e => (st, .thrown e)
      | .ok _ =>
      let st := reportProgress totalSteps ("Creating container " ++ container ++ " on target") st
      let st := addLog ("Creating container " ++ container ++ " on target") st
      let runAndSkipped := buildContainerRunArgs container inspect imageTag
      let st := if runAndSkipped.2.length > 0 then
          addLog ("Skipped mounts: " ++ String.intercalate ", " runAndSkipped.2)
            (addLog ("Skipped " ++ toString runAndSkipped.2.length
              ++ " bind mount(s) with Windows paths for " ++ container
              ++ ". Update mounts manually on the target.") st)
        else st
      let st := emit (.createContainer container) st
      match env.createContainer runAndSkipped.1 with
      | .error e => (st, .thrown e)
      | .ok _ =>
      let st := emit (.cleanupLocal localTar) st
      let st := if isRemoteHost target then emit (.cleanupRemote targetTar) st else st
      containerSteps env target totalSteps lookup rest st

/-- The container phase: the local-source guard, the batch inspection call
and its JSON decoding, then the per-container loop. -/
def containerPhase (env : Env) (source target : HostConfig) (totalSteps : Nat)
    (selection : MigrationSelection) (st : St) : St × Exit :=
  if isRemoteHost source then
    (st, .returned ⟨false,
      "Automated container migration requires a local source host for now.", st.logs⟩)
  else
    let st := emit (.inspectContainersCall selection.containers) st
    match inspectContainers env selection.containers with
    | .error e => (st, .thrown e)
    | .ok raw =>
      match jsonParseInspect env raw with
      | .error e => (st, .thrown e)
      | .ok items =>
        containerSteps env target totalSteps (inspectLookup items) selection.containers st

/-- The trailing volume-inspection block of `runMigration`. -/
def volumeInspectPhase (env : Env) (selection : MigrationSelection) (st : St) : St × Exit :=
  let st := emit (.inspectVolumesCall selection.volumes) st
  match inspectVolumes env selection.volumes with
  | .error e => (st, .thrown e)
  | .ok out => (addLog out (addLog "Volume inspection data captured." st), .normal)

/-- Run the next phase only when the previous one fell through; a `return` or
a thrown exception short-circuits the rest of `runMigration`. -/
def stepPhase (f : St → St × Exit) : St × Exit → St × Exit
  | (st, .normal) => f st
  | out => out

/-- The guarded network phase (`if (options.includeNetworks)`). -/
def networkPhaseGuard (env : Env) (totalSteps : Nat) (selection : MigrationSelection)
    (options : MigrationOptions) (st : St) : St × Exit :=
  if options.includeNetworks then networkPhase env totalSteps selection.networks st
  else (st, .normal)

/-- The guarded volume phase: the remote-source guard returns `ok:false` with
the logs accumulated so far, before any volume work. -/
def volumePhaseGuard (env : Env) (source : HostConfig) (totalSteps : Nat)
    (selection : MigrationSelection) (options : MigrationOptions) (st : St) : St × Exit :=
  if options.includeVolumes then
    if isRemoteHost source then
      (st, .returned ⟨false,
        "Remote source volume sync is not implemented. Use a local source host for volumes.",
        st.logs⟩)
    else volumePhase env totalSteps selection.volumes st
  else (st, .normal)

/-- The guarded container phase. -/
def containerPhaseGuard (env : Env) (source target : HostConfig) (totalSteps : Nat)
    (selection : MigrationSelection) (options : MigrationOptions) (st : St) : St × Exit :=
  if options.includeContainers then containerPhase env source target totalSteps selection st
  else (st, .normal)

/-- The guarded trailing volume-inspection block. -/
def volumeInspectGuard (env : Env) (selection : MigrationSelection)
    (options : MigrationOptions) (st : St) : St × Exit :=
  if options.includeVolumes then volumeInspectPhase env selection st
  else (st, .normal)

/-- Turn the final phase state into `runMigration`'s result: a thrown
exception propagates as `Except.error`, an early `return` and the final
success result are `Except.ok`. -/
def finalizeMigration (options : MigrationOptions) :
    St × Exit → List Event × Except String MigrationResult
  | (st, .thrown e) => (st.events, .error e)
  | (st, .returned r) => (st.events, .ok r)
  | (st, .normal) =>
    (st.events, .ok ⟨true,
      if options.includeContainers then
        "Migration finished with container steps pending manual execution."
      else "Migration finished successfully.",
      st.logs⟩)

/-- The four phases of `runMigration` in order, each short-circuited by an
early return or a thrown exception, starting from the fresh state. -/
def migrationPipeline (env : Env) (source target : HostConfig)
    (selection : MigrationSelection) (options : MigrationOptions) : St × Exit :=
  stepPhase (volumeInspectGuard env selection options)
    (stepPhase (containerPhaseGuard env source target
        (migrationTotalSteps selection options) selection options)
      (stepPhase (volumePhaseGuard env source
          (migrationTotalSteps selection options) selection options)
        (networkPhaseGuard env (migrationTotalSteps selection options) selection options
          ⟨0, [], []⟩)))

/-- `runMigration`: the trace of observable actions together with either the
returned `MigrationResult` or the propagated exception (`Except.error`). -/
def runMigration (env : Env) (source target : HostConfig)
    (selection : MigrationSelection) (options : MigrationOptions) :
    List Event × Except String MigrationResult :=
  finalizeMigration options (migrationPipeline env source target selection options)

/-! ## Theorems settling the claims -/

/-! ### C4: host locality and partial remote configuration -/

/-- C4: every host is treated as local exactly when its address or user is
absent (falsy), and attempting remote execution via `buildSshArgs` on a host
with exactly one of address and user present throws the configuration error
instead of silently falling back to local execution. -/
theorem host_locality_and_partial_config_error (h : HostConfig) (cmd : String) :
    (isRemoteHost h = false ↔ (truthyStr h.host = false ∨ truthyStr h.user = false)) ∧
    (truthyStr h.host ≠ truthyStr h.user →
      buildSshArgs h cmd = .error "Remote host and user are required for SSH commands.") := by
  constructor
  · cases hh : truthyStr h.host <;> cases hu : truthyStr h.user <;> simp [isRemoteHost, hh, hu]
  · intro hpart
    cases hh : truthyStr h.host <;> cases hu : truthyStr h.user <;>
      simp_all [buildSshArgs]

/-- Witness for C4 at a concrete host with an address but no user. -/
theorem host_locality_and_partial_config_error_witness :
    (isRemoteHost ⟨some "10.0.0.1", none, none, none⟩ = false ↔
      (truthyStr (some "10.0.0.1") = false ∨ truthyStr (none : Option String) = false)) ∧
    buildSshArgs ⟨some "10.0.0.1", none, none, none⟩ "true" =
      .error "Remote host and user are required for SSH commands." :=
  ⟨(host_locality_and_partial_config_error ⟨some "10.0.0.1", none, none, none⟩ "true").1,
   (host_locality_and_partial_config_error ⟨some "10.0.0.1", none, none, none⟩ "true").2
     (by decide)⟩

/-! ### C2: piped two-process completion semantics -/

/-- When only the source stderr (trimmed) is nonempty, the failure tail is a
newline and that text. -/
theorem syncFailureTail_left (serr terr : String) (hs : serr.trim ≠ "") (ht : terr.trim = "") :
    syncFailureTail serr terr = "\n" ++ serr.trim := by
  simp [syncFailureTail, syncFailureDetails, hs, ht,
    String.intercalate, String.intercalate.go]

/-- When only the target stderr (trimmed) is nonempty, the failure tail is a
newline and that text. -/
theorem syncFailureTail_right (serr terr : String) (hs : serr.trim = "") (ht : terr.trim ≠ "") :
    syncFailureTail serr terr = "\n" ++ terr.trim := by
  simp [syncFailureTail, syncFailureDetails, hs, ht,
    String.intercalate, String.intercalate.go]

/-- When both stderr captures (trimmed) are nonempty, the failure tail joins
them with newlines. -/
theorem syncFailureTail_both (serr terr : String) (hs : serr.trim ≠ "") (ht : terr.trim ≠ "") :
    syncFailureTail serr terr = "\n" ++ (serr.trim ++ "\n" ++ terr.trim) := by
  have hd : syncFailureDetails serr terr = serr.trim ++ "\n" ++ terr.trim := by
    simp [syncFailureDetails, hs, ht, String.intercalate, String.intercalate.go]
  have hne : serr.trim ++ "\n" ++ terr.trim ≠ "" := by
    intro hcontra
    have h2 := congrArg String.length hcontra
    simp [String.length_append] at h2
    exact absurd h2.1.2 (by decide)
  unfold syncFailureTail
  rw [hd]
  simp [hne]

/-- C2: the piped two-process volume sync resolves exactly when both the
packaging and the unpacking process exit with status zero; when either exits
non-zero (even if the other exits zero) it rejects with the combined error
message, which embeds both exit codes and each process's trimmed nonempty
captured stderr text. -/
theorem pipedSync_success_iff_both_zero (se te : Int) (serr terr : String) :
    (checkComplete se te serr terr = .ok () ↔ se = 0 ∧ te = 0) ∧
    (¬(se = 0 ∧ te = 0) →
      ∃ msg, checkComplete se te serr terr = .error msg ∧
        (∃ p q, msg = p ++ toString se ++ q) ∧
        (∃ p q, msg = p ++ toString te ++ q) ∧
        (serr.trim ≠ "" → ∃ p q, msg = p ++ serr.trim ++ q) ∧
        (terr.trim ≠ "" → ∃ p q, msg = p ++ terr.trim ++ q)) := by
  by_cases h0 : se = 0 ∧ te = 0
  · refine ⟨by simp [checkComplete, h0.1, h0.2], fun hc => absurd h0 hc⟩
  · have hcond : (se != 0 || te != 0) = true := by
      rcases not_and_or.mp h0 with h | h <;> simp [bne_iff_ne, h]
    constructor
    · rw [checkComplete, if_pos hcond]
      constructor
      · intro h
        exact absurd h (by simp)
      · intro h
        exact absurd h h0
    · intro _
      refine ⟨_, by rw [checkComplete, if_pos hcond], ?_, ?_, ?_, ?_⟩
      · exact ⟨"Helper sync failed (source=",
          ", target=" ++ toString te ++ ")." ++ syncFailureTail serr terr,
          by simp only [syncFailureMessage, String.append_assoc]⟩
      · exact ⟨"Helper sync failed (source=" ++ toString se ++ ", target=",
          ")." ++ syncFailureTail serr terr,
          by simp only [syncFailureMessage, String.append_assoc]⟩
      · intro hs
        by_cases ht : terr.trim = ""
        · refine ⟨"Helper sync failed (source=" ++ toString se ++ ", target="
            ++ toString te ++ ")." ++ "\n", "", ?_⟩
          simp only [syncFailureMessage, syncFailureTail_left serr terr hs ht,
            String.append_assoc, String.append_empty]
        · refine ⟨"Helper sync failed (source=" ++ toString se ++ ", target="
            ++ toString te ++ ")." ++ "\n", "\n" ++ terr.trim, ?_⟩
          simp only [syncFailureMessage, syncFailureTail_both serr terr hs ht,
            String.append_assoc]
      · intro ht
        by_cases hs : serr.trim = ""
        · refine ⟨"Helper sync failed (source=" ++ toString se ++ ", target="
            ++ toString te ++ ")." ++ "\n", "", ?_⟩
          simp only [syncFailureMessage, syncFailureTail_right serr terr hs ht,
            String.append_assoc, String.append_empty]
        · refine ⟨"Helper sync failed (source=" ++ toString se ++ ", target="
            ++ toString te ++ ")." ++ "\n" ++ serr.trim ++ "\n", "", ?_⟩
          simp only [syncFailureMessage, syncFailureTail_both serr terr hs ht,
            String.append_assoc, String.append_empty]

/-- Witness for C2: packaging succeeds (exit 0) while unpacking exits 1 with
stderr text, and the whole operation fails with the combined message. -/
theorem pipedSync_success_iff_both_zero_witness :
    ¬((0 : Int) = 0 ∧ (1 : Int) = 0) ∧
    (∃ msg, checkComplete 0 1 "" "tar: error" = .error msg ∧
      (∃ p q, msg = p ++ toString (0 : Int) ++ q) ∧
      (∃ p q, msg = p ++ toString (1 : Int) ++ q) ∧
      (String.trim "" ≠ "" → ∃ p q, msg = p ++ String.trim "" ++ q) ∧
      (String.trim "tar: error" ≠ "" → ∃ p q, msg = p ++ String.trim "tar: error" ++ q)) :=
  ⟨by decide, (pipedSync_success_iff_both_zero 0 1 "" "tar: error").2 (by decide)⟩

/-! ### C3: shell quoting of remote command strings -/

/-- C3: at the concrete name `my data`, the docker.ts remote command builders
embed the name without quoting — the shell-escaped form does not occur in the
built command string, so the name splits into two arguments — while
`buildDockerCommand` (migration.ts) does embed the individually quoted form. -/
theorem remote_command_embeds_name_unquoted :
    ensureNetworkOnTargetCommand "my data" = "docker network create my data" ∧
    strContains (shellEscape "my data") (ensureNetworkOnTargetCommand "my data") = false ∧
    ensureVolumeOnTargetCommand "my data" = "docker volume create my data" ∧
    runDockerCommandString ["inspect", "my data"] = "docker inspect my data" ∧
    strContains (shellEscape "my data") (runDockerCommandString ["inspect", "my data"]) = false ∧
    strContains (shellEscape "my data") (buildDockerCommand ["inspect", "my data"]) = true := by
  decide

/-! ### C9: what the unpacking command's clear step removes -/

/-- Helper: `*` matches every character list. -/
theorem globMatch_star (s : List Char) : globMatch ['*'] s = true := by
  induction s with
  | nil => simp [globMatch]
  | cons c t ih => simp [globMatch, ih]

/-- C9 counterexample: `.a` is a hidden entry (a name beginning with a dot,
distinct from `.` and `..`), yet the unpacking command's
`rm -rf ./* ./.??*` does not remove it. -/
theorem untar_misses_short_hidden_entry :
    ".a".data = ['.', 'a'] ∧ ".a" ≠ "." ∧ ".a" ≠ ".." ∧ untarClears ".a" = false := by
  refine ⟨rfl, by decide, by decide, ?_⟩
  have h1 : ".a".data = ['.', 'a'] := rfl
  simp [untarClears, globMatchTop, h1, leadingDotOk, untarStarPattern, untarDotPattern,
    globMatch]

/-- C9 amended: the unpacking command run on the target first clears the
destination mount before extracting, removing every non-hidden entry and
every hidden entry with at least two characters after the dot; hidden
entries with a single character after the dot (such as `.a`) survive. -/
theorem untarClears_characterization (volume name : String) :
    (buildDockerUntarArgs volume).getLast? = some untarShell ∧
    (∀ c t, name.data = c :: t → c ≠ '.' → untarClears name = true) ∧
    (∀ t, name.data = '.' :: t → (untarClears name = true ↔ 2 ≤ t.length)) := by
  refine ⟨rfl, ?_, ?_⟩
  · intro c t hdata hc
    simp [untarClears, globMatchTop, untarStarPattern, hdata, leadingDotOk, hc, globMatch_star]
  · intro t hdata
    rcases t with _ | ⟨c1, _ | ⟨c2, t2⟩⟩ <;>
      simp [untarClears, globMatchTop, untarStarPattern, untarDotPattern, hdata,
        leadingDotOk, globMatch, globMatch_star]

/-- Witness for C9's amended claim: the non-hidden entry `data` and the
hidden entry `.cache` are both cleared. -/
theorem untarClears_characterization_witness :
    untarClears "data" = true ∧ (untarClears ".cache" = true ↔ 2 ≤ ("cache".data).length) :=
  ⟨(untarClears_characterization "v" "data").2.1 'd' ['a', 't', 'a'] rfl (by decide),
   (untarClears_characterization "v" ".cache").2.2 "cache".data rfl⟩

/-! ### C7: bind-mount skipping and the recorded reason -/

/-- C7 counterexample: the Windows-style bind `C:\data:/data` is skipped, but
the reason string recorded by `normalizeBindMount` is
`Windows host path detected`, not `host path not portable across platforms`. -/
theorem windows_bind_reason_differs :
    normalizeBindMount "C:\\data:/data" =
      { bind := none, reason := some "Windows host path detected" } ∧
    (normalizeBindMount "C:\\data:/data").reason ≠
      some "host path not portable across platforms" := by
  decide

/-- The bind loop of the translator: kept binds become `-v` flags in order,
Windows-style binds are collected as skipped. -/
theorem buildBindArgs_spec (binds : List String) :
    buildBindArgs binds
      = ((binds.filter (fun b => !isWindowsPath b)).flatMap (fun b => ["-v", b]),
         binds.filter (fun b => isWindowsPath b)) := by
  induction binds with
  | nil => rfl
  | cons b rest ih =>
    by_cases hw : isWindowsPath b = true
    · simp [buildBindArgs, normalizeBindMount, hw, ih, List.filter_cons]
    · simp only [Bool.not_eq_true] at hw
      simp [buildBindArgs, normalizeBindMount, hw, ih, List.filter_cons]

/-- C7 amended: every Windows-style bind mount (drive-letter pattern or
embedded backslash) is excluded from the derived creation arguments and
recorded among the skipped binds — with `normalizeBindMount`'s reason string
`Windows host path detected` — while every other bind mount is re-applied
verbatim as a `-v` flag, in order, between the environment and port
sections. -/
theorem windows_binds_skipped (name : String) (inspect : ContainerInspect) (imageTag : String) :
    (buildContainerRunArgs name inspect imageTag).2
      = ((inspect.HostConfig.bind (·.Binds)).getD []).filter (fun b => isWindowsPath b) ∧
    (buildContainerRunArgs name inspect imageTag).1
      = containerBaseArgs name inspect ++ containerEnvArgs inspect
        ++ ((((inspect.HostConfig.bind (·.Binds)).getD []).filter
              (fun b => !isWindowsPath b)).flatMap (fun b => ["-v", b]))
        ++ containerPortArgs inspect ++ containerRestartArgs inspect
        ++ containerNetworkArgs inspect ++ containerMiscArgs inspect
        ++ containerTailArgs imageTag inspect ∧
    (∀ b, isWindowsPath b = true →
      normalizeBindMount b = { bind := none, reason := some "Windows host path detected" }) ∧
    (∀ b, isWindowsPath b = false →
      normalizeBindMount b = { bind := some b, reason := none }) := by
  refine ⟨?_, ?_, ?_, ?_⟩
  · simp [buildContainerRunArgs, buildBindArgs_spec]
  · simp [buildContainerRunArgs, buildBindArgs_spec]
  · intro b hb; simp [normalizeBindMount, hb]
  · intro b hb; simp [normalizeBindMount, hb]

/-- Witness for C7's amended claim at a concrete portable bind. -/
theorem windows_binds_skipped_witness :
    normalizeBindMount "/data:/data" = { bind := some "/data:/data", reason := none } :=
  (windows_binds_skipped "web" ⟨none, none, none, none, none⟩ "img").2.2.2
    "/data:/data" (by decide)

/-! ### C8: determinism of the plan builder -/

/-- The id-independent content of a plan step. -/
def stepShape (s : MigrationPlanStep) : String × Option String × Option RunSite :=
  (s.label, s.command, s.runOn)

/-- The network section's step shapes and warnings do not depend on the id
source or the id index. -/
theorem planNetworks_shape (gen gen' : Nat → String) (l : List String) (k k' : Nat) :
    (planNetworks gen l k).1.map stepShape = (planNetworks gen' l k').1.map stepShape ∧
    (planNetworks gen l k).2.1 = (planNetworks gen' l k').2.1 := by
  induction l generalizing k k' with
  | nil => simp [planNetworks]
  | cons n rest ih =>
    by_cases hd : isDefaultNetwork n = true
    · have hih := ih k k'
      rcases h : planNetworks gen rest k with ⟨s, w, k2⟩
      rcases h' : planNetworks gen' rest k' with ⟨s', w', k2'⟩
      rw [h, h'] at hih
      simp only at hih
      simp [planNetworks, hd, h, h', hih.1, hih.2]
    · have hih := ih (k + 1) (k' + 1)
      rcases h : planNetworks gen rest (k + 1) with ⟨s, w, k2⟩
      rcases h' : planNetworks gen' rest (k' + 1) with ⟨s', w', k2'⟩
      rw [h, h'] at hih
      simp only at hih
      simp [planNetworks, hd, h, h', stepShape, createStep, hih.1, hih.2]

/-- The volume section's step shapes do not depend on the id source or the id
index. -/
theorem planVolumes_shape (gen gen' : Nat → String) (l : List String) (k k' : Nat) :
    (planVolumes gen l k).1.map stepShape = (planVolumes gen' l k').1.map stepShape := by
  induction l generalizing k k' with
  | nil => simp [planVolumes]
  | cons v rest ih =>
    have hih := ih (k + 2) (k' + 2)
    rcases h : planVolumes gen rest (k + 2) with ⟨s, k2⟩
    rcases h' : planVolumes gen' rest (k' + 2) with ⟨s', k2'⟩
    rw [h, h'] at hih
    simp [planVolumes, h, h', stepShape, createStep, hih]

/-- The container section's step shapes do not depend on the id source or the
id index. -/
theorem planContainers_shape (gen gen' : Nat → String) (l : List String) (k k' : Nat) :
    (planContainers gen l k).1.map stepShape = (planContainers gen' l k').1.map stepShape := by
  induction l generalizing k k' with
  | nil => simp [planContainers]
  | cons c rest ih =>
    have hih := ih (k + 5) (k' + 5)
    rcases h : planContainers gen rest (k + 5) with ⟨s, k2⟩
    rcases h' : planContainers gen' rest (k' + 5) with ⟨s', k2'⟩
    rw [h, h'] at hih
    simp [planContainers, h, h', stepShape, createStep, hih]

/-- C8 counterexample: two invocations of the plan builder on identical
inputs, whose ambient id states (clock tick and random draw inside
`createStep`) differ, produce different `MigrationPlan` values: the step ids
are not the same. -/
theorem createMigrationPlan_ids_differ :
    createMigrationPlan (fun _ => "1700000000000-aaaaaa")
        ⟨none, none, none, none⟩ ⟨none, none, none, none⟩
        ⟨[], [], ["appnet"]⟩ ⟨false, false, true, false⟩
      ≠ createMigrationPlan (fun _ => "1700000000001-bbbbbb")
        ⟨none, none, none, none⟩ ⟨none, none, none, none⟩
        ⟨[], [], ["appnet"]⟩ ⟨false, false, true, false⟩ := by
  decide

/-- C8 amended: for a fixed id stream the plan builder is a pure function of
its inputs, and for any two id streams the two plans agree on everything
except the generated step ids: same warnings, and step lists of the same
length whose labels, commands and execution sites coincide position-wise;
only the ids (drawn from the clock and a random source) may differ between
two invocations. -/
theorem createMigrationPlan_deterministic_up_to_ids (gen gen' : Nat → String)
    (source target : HostConfig) (selection : MigrationSelection)
    (options : MigrationOptions) :
    (createMigrationPlan gen source target selection options).steps.map stepShape
      = (createMigrationPlan gen' source target selection options).steps.map stepShape ∧
    (createMigrationPlan gen source target selection options).warnings
      = (createMigrationPlan gen' source target selection options).warnings := by
  have hn := planNetworks_shape gen gen' selection.networks 0 0
  have hnw : (planNetworksSection gen selection options).1.map stepShape
      = (planNetworksSection gen' selection options).1.map stepShape ∧
      (planNetworksSection gen selection options).2.1
        = (planNetworksSection gen' selection options).2.1 := by
    unfold planNetworksSection
    split
    · exact planNetworks_shape gen gen' selection.networks 0 0
    · exact ⟨rfl, rfl⟩
  have hvw : ∀ k k', (planVolumesSection gen selection options k).1.map stepShape
      = (planVolumesSection gen' selection options k').1.map stepShape ∧
      (planVolumesSection gen selection options k).2.1
        = (planVolumesSection gen' selection options k').2.1 := by
    intro k k'
    unfold planVolumesSection
    split
    · exact ⟨planVolumes_shape gen gen' selection.volumes k k', rfl⟩
    · exact ⟨rfl, rfl⟩
  have hcw : ∀ k k', (planContainersSection gen selection options k).1.map stepShape
      = (planContainersSection gen' selection options k').1.map stepShape ∧
      (planContainersSection gen selection options k).2.1
        = (planContainersSection gen' selection options k').2.1 := by
    intro k k'
    unfold planContainersSection
    split
    · exact ⟨planContainers_shape gen gen' selection.containers k k', rfl⟩
    · exact ⟨rfl, rfl⟩
  have hv := hvw (planNetworksSection gen selection options).2.2
    (planNetworksSection gen' selection options).2.2
  have hc := hcw (planVolumesSection gen selection options
      (planNetworksSection gen selection options).2.2).2.2
    (planVolumesSection gen' selection options
      (planNetworksSection gen' selection options).2.2).2.2
  have hsteps : (createMigrationPlan gen source target selection options).steps.map stepShape
      = (createMigrationPlan gen' source target selection options).steps.map stepShape := by
    simp only [createMigrationPlan, List.map_append]
    rw [hnw.1, hv.1, hc.1]
  refine ⟨hsteps, ?_⟩
  have hempty : (createMigrationPlan gen source target selection options).steps.isEmpty
      = (createMigrationPlan gen' source target selection options).steps.isEmpty := by
    have hlen := congrArg List.length hsteps
    simp only [List.length_map] at hlen
    rw [Bool.eq_iff_iff, List.isEmpty_iff_length_eq_zero,
      List.isEmpty_iff_length_eq_zero, hlen]
  simp only [createMigrationPlan] at hempty ⊢
  rw [hnw.2, hv.2, hc.2, hempty]

/-! ### Engine trace machinery: the progress stream of a phase -/

/-- The (current, total) pairs of the ProgressUpdate events in a trace. -/
def progressPairs (events : List Event) : List (Nat × Nat) :=
  events.filterMap (fun e => match e with
    | .progress c t _ => some (c, t)
    | _ => none)

/-- A phase's effect on the progress stream: its new updates carry
consecutive currents continuing from the starting counter, every total is
`max T 1`, and at most `bound` updates are added. -/
def ProgSpec (T bound : Nat) (st st' : St) : Prop :=
  st.current ≤ st'.current ∧ st'.current ≤ st.current + bound ∧
  ∃ Δ, st'.events = st.events ++ Δ ∧
    progressPairs Δ = (List.range' (st.current + 1) (st'.current - st.current)).map
      (fun i => (i, max T 1))

theorem ProgSpec_self (T b : Nat) (st : St) : ProgSpec T b st st :=
  ⟨le_refl _, Nat.le_add_right _ _, [], by simp, by simp [progressPairs]⟩

theorem ProgSpec_mono {T b1 b2 : Nat} (h : b1 ≤ b2) {st st' : St}
    (hs : ProgSpec T b1 st st') : ProgSpec T b2 st st' :=
  ⟨hs.1, le_trans hs.2.1 (Nat.add_le_add_left h _), hs.2.2⟩

theorem ProgSpec_trans {T b1 b2 : Nat} {st1 st2 st3 : St}
    (h1 : ProgSpec T b1 st1 st2) (h2 : ProgSpec T b2 st2 st3) :
    ProgSpec T (b1 + b2) st1 st3 := by
  obtain ⟨hle1, hub1, d1, he1, hp1⟩ := h1
  obtain ⟨hle2, hub2, d2, he2, hp2⟩ := h2
  refine ⟨le_trans hle1 hle2, by omega, d1 ++ d2, ?_, ?_⟩
  · rw [he2, he1, List.append_assoc]
  · have hsplit : progressPairs (d1 ++ d2) = progressPairs d1 ++ progressPairs d2 := by
      simp [progressPairs]
    rw [hsplit, hp1, hp2]
    have harg : st2.current + 1 = (st1.current + 1) + (st2.current - st1.current) := by
      omega
    rw [harg, ← List.map_append, List.range'_append_1]
    have hn : (st3.current - st2.current) + (st2.current - st1.current)
        = st3.current - st1.current := by omega
    rw [hn]

theorem ProgSpec_report (T : Nat) (m : String) (st : St) :
    ProgSpec T 1 st (reportProgress T m st) := by
  refine ⟨Nat.le_succ _, le_refl _,
    [Event.progress (st.current + 1) (max T 1) m], rfl, ?_⟩
  have h1 : st.current + 1 - st.current = 1 := by omega
  simp [progressPairs, reportProgress, h1]

theorem ProgSpec_addLog (T b : Nat) (m : String) (st : St) :
    ProgSpec T b st (addLog m st) :=
  ⟨le_refl _, Nat.le_add_right _ _, [], by simp [addLog], by simp [progressPairs, addLog]⟩

theorem ProgSpec_emit (T b : Nat) (e : Event) (st : St)
    (he : progressPairs [e] = []) :
    ProgSpec T b st (emit e st) :=
  ⟨le_refl _, Nat.le_add_right _ _, [e], rfl, by simp [he, emit]⟩

/-- Consecutive naturals are pairwise non-decreasing. -/
theorem pairwise_le_range' (s n : Nat) : List.Pairwise (· ≤ ·) (List.range' s n) := by
  induction n generalizing s with
  | zero => simp
  | succ n ih =>
    rw [List.range'_succ]
    refine List.Pairwise.cons ?_ (ih (s + 1))
    intro m hm
    rcases List.mem_range'.mp hm with ⟨i, hi, rfl⟩
    omega

/-- The network phase's progress stream: one update per non-default network,
consecutive and bounded. -/
theorem networkPhase_spec (env : Env) (T : Nat) (l : List String) (st : St) :
    ProgSpec T (l.filter (fun n => !isDefaultNetwork n)).length st
      (networkPhase env T l st).1 := by
  induction l generalizing st with
  | nil => exact ProgSpec_self T _ st
  | cons n rest ih =>
    by_cases hd : isDefaultNetwork n = true
    · have h := ProgSpec_trans (ProgSpec_addLog T 0
        ("Skipping default network " ++ n ++ " (predefined by Docker).") st)
        (ih (addLog ("Skipping default network " ++ n ++ " (predefined by Docker).") st))
      simp only [networkPhase, hd, if_true, List.filter_cons, Bool.not_true]
      simpa using h
    · rw [Bool.not_eq_true] at hd
      simp only [networkPhase, hd, Bool.false_eq_true, if_false, List.filter_cons,
        Bool.not_false, if_true]
      cases hc : env.ensureNetwork n with
      | ok u =>
        simp only [hc]
        refine ProgSpec_mono ?_ (ProgSpec_trans
          (ProgSpec_report T ("Creating network " ++ n ++ " on target") st)
          (ProgSpec_trans (ProgSpec_addLog T 0 _ _)
            (ProgSpec_trans (ProgSpec_emit T 0 (Event.ensureNetwork n) _
              (by simp [progressPairs])) (ih _))))
        simp only [List.length_cons]
        omega
      | error e =>
        simp only [hc]
        refine ProgSpec_mono ?_ (ProgSpec_trans
          (ProgSpec_report T ("Creating network " ++ n ++ " on target") st)
          (ProgSpec_trans (ProgSpec_addLog T 0 _ _)
            (ProgSpec_emit T 0 (Event.ensureNetwork n) _ (by simp [progressPairs]))))
        simp only [List.length_cons]
        omega

/-- The volume phase's progress stream: one update per volume, consecutive
and bounded. -/
theorem volumePhase_spec (env : Env) (T : Nat) (l : List String) (st : St) :
    ProgSpec T l.length st (volumePhase env T l st).1 := by
  induction l generalizing st with
  | nil => exact ProgSpec_self T _ st
  | cons v rest ih =>
    simp only [volumePhase]
    cases hc : env.ensureVolume v with
    | error e =>
      simp only [hc]
      refine ProgSpec_mono ?_ (ProgSpec_trans
        (ProgSpec_report T ("Syncing volume " ++ v ++ " to target") st)
        (ProgSpec_trans (ProgSpec_addLog T 0 _ _)
          (ProgSpec_emit T 0 (Event.ensureVolume v) _ (by simp [progressPairs]))))
      simp only [List.length_cons]
      omega
    | ok u =>
      simp only [hc]
      cases hs : env.syncVolume v with
      | error e =>
        simp only [hs]
        refine ProgSpec_mono ?_ (ProgSpec_trans
          (ProgSpec_report T ("Syncing volume " ++ v ++ " to target") st)
          (ProgSpec_trans (ProgSpec_addLog T 0 _ _)
            (ProgSpec_trans (ProgSpec_emit T 0 (Event.ensureVolume v) _
                (by simp [progressPairs]))
              (ProgSpec_trans (ProgSpec_addLog T 0 _ _)
                (ProgSpec_emit T 0 (Event.syncVolume v) _ (by simp [progressPairs]))))))
        simp only [List.length_cons]
        omega
      | ok u2 =>
        simp only [hs]
        refine ProgSpec_mono ?_ (ProgSpec_trans
          (ProgSpec_report T ("Syncing volume " ++ v ++ " to target") st)
          (ProgSpec_trans (ProgSpec_addLog T 0 _ _)
            (ProgSpec_trans (ProgSpec_emit T 0 (Event.ensureVolume v) _
                (by simp [progressPairs]))
              (ProgSpec_trans (ProgSpec_addLog T 0 _ _)
                (ProgSpec_trans (ProgSpec_emit T 0 (Event.syncVolume v) _
                  (by simp [progressPairs])) (ih _))))))
        simp only [List.length_cons]
        omega

theorem ProgSpec_ite_addLog2 (T : Nat) (c : Prop) [Decidable c] (m1 m2 : String) (st : St) :
    ProgSpec T 0 st (if c then addLog m1 (addLog m2 st) else st) := by
  by_cases h : c
  · simp only [h, if_true]
    exact ProgSpec_trans (ProgSpec_addLog T 0 m2 st) (ProgSpec_addLog T 0 m1 _)
  · simp only [h, if_false]
    exact ProgSpec_self T 0 st

theorem ProgSpec_ite_emit (T : Nat) (c : Prop) [Decidable c] (e : Event) (st : St)
    (he : progressPairs [e] = []) :
    ProgSpec T 0 st (if c then emit e st else st) := by
  by_cases h : c
  · simp only [h, if_true]
    exact ProgSpec_emit T 0 e st he
  · simp only [h, if_false]
    exact ProgSpec_self T 0 st

/-- Bound weakening with the specification first (for goal-ordered use). -/
theorem ProgSpec_weaken {T b1 : Nat} {st st' : St} (hs : ProgSpec T b1 st st')
    {b2 : Nat} (h : b1 ≤ b2) : ProgSpec T b2 st st' :=
  ProgSpec_mono h hs

/-- Composition with the outer (later) phase step given first, so that the
intermediate state is inferred from the goal. -/
theorem ProgSpec_before {T b2 : Nat} {st2 st3 : St} (h2 : ProgSpec T b2 st2 st3)
    {b1 : Nat} {st1 : St} (h1 : ProgSpec T b1 st1 st2) : ProgSpec T (b1 + b2) st1 st3 :=
  ProgSpec_trans h1 h2

/-- The container phase's progress stream: between one and five updates per
selected container, consecutive and bounded by five per container. -/
theorem containerSteps_spec (env : Env) (tgt : HostConfig) (T : Nat)
    (lookup : String → Option ContainerInspect) (l : List String) (st : St) :
    ProgSpec T (5 * l.length) st (containerSteps env tgt T lookup l st).1 := by
  induction l generalizing st with
  | nil => exact ProgSpec_self T _ st
  | cons c rest ih =>
    simp only [containerSteps]
    split
    · -- no inspected configuration: skip with one progress update
      apply ProgSpec_weaken
      · apply ProgSpec_before (ih _)
        apply ProgSpec_before (ProgSpec_addLog T 0 _ _)
        apply ProgSpec_before (ProgSpec_report T _ _)
        exact ProgSpec_self T 0 st
      · simp only [List.length_cons]; omega
    · split
      · -- commit rejects
        apply ProgSpec_weaken
        · apply ProgSpec_before (ProgSpec_emit T 0 _ _ (by simp [progressPairs]))
          apply ProgSpec_before (ProgSpec_addLog T 0 _ _)
          apply ProgSpec_before (ProgSpec_report T _ _)
          exact ProgSpec_self T 0 st
        · simp only [List.length_cons]; omega
      · split
        · -- save rejects
          apply ProgSpec_weaken
          · apply ProgSpec_before (ProgSpec_emit T 0 _ _ (by simp [progressPairs]))
            apply ProgSpec_before (ProgSpec_addLog T 0 _ _)
            apply ProgSpec_before (ProgSpec_report T _ _)
            apply ProgSpec_before (ProgSpec_emit T 0 _ _ (by simp [progressPairs]))
            apply ProgSpec_before (ProgSpec_addLog T 0 _ _)
            apply ProgSpec_before (ProgSpec_report T _ _)
            exact ProgSpec_self T 0 st
          · simp only [List.length_cons]; omega
        · split
          · -- transfer rejects
            apply ProgSpec_weaken
            · apply ProgSpec_before (ProgSpec_emit T 0 _ _ (by simp [progressPairs]))
              apply ProgSpec_before (ProgSpec_addLog T 0 _ _)
              apply ProgSpec_before (ProgSpec_report T _ _)
              apply ProgSpec_before (ProgSpec_emit T 0 _ _ (by simp [progressPairs]))
              apply ProgSpec_before (ProgSpec_addLog T 0 _ _)
              apply ProgSpec_before (ProgSpec_report T _ _)
              apply ProgSpec_before (ProgSpec_emit T 0 _ _ (by simp [progressPairs]))
              apply ProgSpec_before (ProgSpec_addLog T 0 _ _)
              apply ProgSpec_before (ProgSpec_report T _ _)
              exact ProgSpec_self T 0 st
            · simp only [List.length_cons]; omega
          · split
            · -- load rejects
              apply ProgSpec_weaken
              · apply ProgSpec_before (ProgSpec_emit T 0 _ _ (by simp [progressPairs]))
                apply ProgSpec_before (ProgSpec_addLog T 0 _ _)
                apply ProgSpec_before (ProgSpec_report T _ _)
                apply ProgSpec_before (ProgSpec_emit T 0 _ _ (by simp [progressPairs]))
                apply ProgSpec_before (ProgSpec_addLog T 0 _ _)
                apply ProgSpec_before (ProgSpec_report T _ _)
                apply ProgSpec_before (ProgSpec_emit T 0 _ _ (by simp [progressPairs]))
                apply ProgSpec_before (ProgSpec_addLog T 0 _ _)
                apply ProgSpec_before (ProgSpec_report T _ _)
                apply ProgSpec_before (ProgSpec_emit T 0 _ _ (by simp [progressPairs]))
                apply ProgSpec_before (ProgSpec_addLog T 0 _ _)
                apply ProgSpec_before (ProgSpec_report T _ _)
                exact ProgSpec_self T 0 st
              · simp only [List.length_cons]; omega
            · split
              · -- create rejects
                apply ProgSpec_weaken
                · apply ProgSpec_before (ProgSpec_emit T 0 _ _ (by simp [progressPairs]))
                  apply ProgSpec_before (ProgSpec_ite_addLog2 T _ _ _ _)
                  apply ProgSpec_before (ProgSpec_addLog T 0 _ _)
                  apply ProgSpec_before (ProgSpec_report T _ _)
                  apply ProgSpec_before (ProgSpec_emit T 0 _ _ (by simp [progressPairs]))
                  apply ProgSpec_before (ProgSpec_addLog T 0 _ _)
                  apply ProgSpec_before (ProgSpec_report T _ _)
                  apply ProgSpec_before (ProgSpec_emit T 0 _ _ (by simp [progressPairs]))
                  apply ProgSpec_before (ProgSpec_addLog T 0 _ _)
                  apply ProgSpec_before (ProgSpec_report T _ _)
                  apply ProgSpec_before (ProgSpec_emit T 0 _ _ (by simp [progressPairs]))
                  apply ProgSpec_before (ProgSpec_addLog T 0 _ _)
                  apply ProgSpec_before (ProgSpec_report T _ _)
                  apply ProgSpec_before (ProgSpec_emit T 0 _ _ (by simp [progressPairs]))
                  apply ProgSpec_before (ProgSpec_addLog T 0 _ _)
                  apply ProgSpec_before (ProgSpec_report T _ _)
                  exact ProgSpec_self T 0 st
                · simp only [List.length_cons]; omega
              · -- full success, then the next container
                apply ProgSpec_weaken
                · apply ProgSpec_before (ih _)
                  apply ProgSpec_before (ProgSpec_ite_emit T _ _ _ (by simp [progressPairs]))
                  apply ProgSpec_before (ProgSpec_emit T 0 _ _ (by simp [progressPairs]))
                  apply ProgSpec_before (ProgSpec_emit T 0 _ _ (by simp [progressPairs]))
                  apply ProgSpec_before (ProgSpec_ite_addLog2 T _ _ _ _)
                  apply ProgSpec_before (ProgSpec_addLog T 0 _ _)
                  apply ProgSpec_before (ProgSpec_report T _ _)
                  apply ProgSpec_before (ProgSpec_emit T 0 _ _ (by simp [progressPairs]))
                  apply ProgSpec_before (ProgSpec_addLog T 0 _ _)
                  apply ProgSpec_before (ProgSpec_report T _ _)
                  apply ProgSpec_before (ProgSpec_emit T 0 _ _ (by simp [progressPairs]))
                  apply ProgSpec_before (ProgSpec_addLog T 0 _ _)
                  apply ProgSpec_before (ProgSpec_report T _ _)
                  apply ProgSpec_before (ProgSpec_emit T 0 _ _ (by simp [progressPairs]))
                  apply ProgSpec_before (ProgSpec_addLog T 0 _ _)
                  apply ProgSpec_before (ProgSpec_report T _ _)
                  apply ProgSpec_before (ProgSpec_emit T 0 _ _ (by simp [progressPairs]))
                  apply ProgSpec_before (ProgSpec_addLog T 0 _ _)
                  apply ProgSpec_before (ProgSpec_report T _ _)
                  exact ProgSpec_self T 0 st
                · simp only [List.length_cons]; omega

/-- The trailing volume-inspection block adds no progress updates. -/
theorem volumeInspectPhase_spec (env : Env) (T : Nat) (sel : MigrationSelection) (st : St) :
    ProgSpec T 0 st (volumeInspectPhase env sel st).1 := by
  unfold volumeInspectPhase
  split
  · apply ProgSpec_before (ProgSpec_emit T 0 _ _ (by simp [progressPairs]))
    exact ProgSpec_self T 0 st
  · apply ProgSpec_before (ProgSpec_addLog T 0 _ _)
    apply ProgSpec_before (ProgSpec_addLog T 0 _ _)
    apply ProgSpec_before (ProgSpec_emit T 0 _ _ (by simp [progressPairs]))
    exact ProgSpec_self T 0 st

/-- The container phase (guard, batch inspection, decoding, loop) keeps the
five-per-container progress bound. -/
theorem containerPhase_spec (env : Env) (source target : HostConfig) (T : Nat)
    (sel : MigrationSelection) (st : St) :
    ProgSpec T (5 * sel.containers.length) st
      (containerPhase env source target T sel st).1 := by
  unfold containerPhase
  split
  · exact ProgSpec_self T _ st
  · split
    · exact ProgSpec_emit T _ _ _ (by simp [progressPairs])
    · split
      · exact ProgSpec_emit T _ _ _ (by simp [progressPairs])
      · apply ProgSpec_weaken
        · apply ProgSpec_before (containerSteps_spec env target T _ sel.containers _)
          exact ProgSpec_emit T 0 _ _ (by simp [progressPairs])
        · omega

/-- Progress bound of the guarded network phase. -/
theorem networkPhaseGuard_spec (env : Env) (T : Nat) (sel : MigrationSelection)
    (opts : MigrationOptions) (st : St) :
    ProgSpec T (if opts.includeNetworks then
        (sel.networks.filter (fun n => !isDefaultNetwork n)).length else 0) st
      (networkPhaseGuard env T sel opts st).1 := by
  unfold networkPhaseGuard
  split
  · exact networkPhase_spec env T sel.networks st
  · exact ProgSpec_self T 0 st

/-- Progress bound of the guarded volume phase. -/
theorem volumePhaseGuard_spec (env : Env) (source : HostConfig) (T : Nat)
    (sel : MigrationSelection) (opts : MigrationOptions) (st : St) :
    ProgSpec T (if opts.includeVolumes then sel.volumes.length else 0) st
      (volumePhaseGuard env source T sel opts st).1 := by
  unfold volumePhaseGuard
  split
  · split
    · exact ProgSpec_self T _ st
    · exact volumePhase_spec env T sel.volumes st
  · exact ProgSpec_self T 0 st

/-- Progress bound of the guarded container phase. -/
theorem containerPhaseGuard_spec (env : Env) (source target : HostConfig) (T : Nat)
    (sel : MigrationSelection) (opts : MigrationOptions) (st : St) :
    ProgSpec T (if opts.includeContainers then sel.containers.length * 5 else 0) st
      (containerPhaseGuard env source target T sel opts st).1 := by
  unfold containerPhaseGuard
  split
  · exact ProgSpec_mono (by omega) (containerPhase_spec env source target T sel st)
  · exact ProgSpec_self T 0 st

/-- Progress bound of the guarded volume inspection. -/
theorem volumeInspectGuard_spec (env : Env) (T : Nat) (sel : MigrationSelection)
    (opts : MigrationOptions) (st : St) :
    ProgSpec T 0 st (volumeInspectGuard env sel opts st).1 := by
  unfold volumeInspectGuard
  split
  · exact volumeInspectPhase_spec env T sel st
  · exact ProgSpec_self T 0 st

/-- A short-circuited phase preserves the progress specification. -/
theorem stepPhase_spec {T b1 b2 : Nat} {st0 : St} (f : St → St × Exit) (out : St × Exit)
    (h1 : ProgSpec T b1 st0 out.1) (h2 : ∀ st, ProgSpec T b2 st (f st).1) :
    ProgSpec T (b1 + b2) st0 (stepPhase f out).1 := by
  rcases out with ⟨st, x⟩
  cases x with
  | normal => exact ProgSpec_trans h1 (h2 st)
  | returned r => exact ProgSpec_mono (Nat.le_add_right _ _) h1
  | thrown e => exact ProgSpec_mono (Nat.le_add_right _ _) h1

/-- The whole pipeline respects the precomputed total: at most
`migrationTotalSteps` consecutive progress updates starting at 1. -/
theorem migrationPipeline_spec (env : Env) (source target : HostConfig)
    (sel : MigrationSelection) (opts : MigrationOptions) :
    ProgSpec (migrationTotalSteps sel opts) (migrationTotalSteps sel opts)
      ⟨0, [], []⟩ (migrationPipeline env source target sel opts).1 := by
  unfold migrationPipeline
  apply ProgSpec_mono (le_of_eq ?_)
  apply stepPhase_spec _ _ (stepPhase_spec _ _ (stepPhase_spec _ _
    (networkPhaseGuard_spec env (migrationTotalSteps sel opts) sel opts ⟨0, [], []⟩)
    (volumePhaseGuard_spec env source (migrationTotalSteps sel opts) sel opts))
    (containerPhaseGuard_spec env source target (migrationTotalSteps sel opts) sel opts))
    (volumeInspectGuard_spec env (migrationTotalSteps sel opts) sel opts)
  unfold migrationTotalSteps
  omega

/-- `finalizeMigration` reports exactly the final state's event trace. -/
theorem finalizeMigration_events (options : MigrationOptions) (out : St × Exit) :
    (finalizeMigration options out).1 = out.1.events := by
  rcases out with ⟨st, x⟩
  cases x <;> rfl

/-! ### C5: the progress stream of one execution -/

/-- C5: the total is computed once at the start as (non-default networks when
included) + (volumes when included) + (5 × containers when included); every
ProgressUpdate of one execution carries that total clamped up to at least 1,
`current` never exceeds it, and `current` is monotonically non-decreasing
across the event stream. -/
theorem progress_total_and_monotonicity (env : Env) (source target : HostConfig)
    (sel : MigrationSelection) (opts : MigrationOptions) :
    1 ≤ max (migrationTotalSteps sel opts) 1 ∧
    migrationTotalSteps sel opts =
      (if opts.includeNetworks then
        (sel.networks.filter (fun n => !isDefaultNetwork n)).length else 0)
      + (if opts.includeVolumes then sel.volumes.length else 0)
      + (if opts.includeContainers then sel.containers.length * 5 else 0) ∧
    (∀ u ∈ progressPairs (runMigration env source target sel opts).1,
      u.2 = max (migrationTotalSteps sel opts) 1 ∧
      u.1 ≤ max (migrationTotalSteps sel opts) 1) ∧
    List.Pairwise (fun a b => a ≤ b)
      ((progressPairs (runMigration env source target sel opts).1).map Prod.fst) := by
  obtain ⟨h0, hub, d, he, hp⟩ := migrationPipeline_spec env source target sel opts
  have hcur : (migrationPipeline env source target sel opts).1.current
      ≤ migrationTotalSteps sel opts := by simpa using hub
  have htr : (runMigration env source target sel opts).1
      = (migrationPipeline env source target sel opts).1.events := by
    unfold runMigration
    exact finalizeMigration_events opts _
  have he' : (migrationPipeline env source target sel opts).1.events = d := by
    simpa using he
  refine ⟨le_max_right _ _, rfl, ?_, ?_⟩
  · intro u hu
    rw [htr, he', hp] at hu
    rcases List.mem_map.mp hu with ⟨i, hi, rfl⟩
    refine ⟨rfl, ?_⟩
    rcases List.mem_range'.mp hi with ⟨j, hj, rfl⟩
    simp only []
    have hmax : migrationTotalSteps sel opts ≤ max (migrationTotalSteps sel opts) 1 :=
      le_max_left _ _
    omega
  · rw [htr, he', hp, List.map_map]
    have hid : (Prod.fst ∘ fun i => (i, max (migrationTotalSteps sel opts) 1))
        = fun i : Nat => i := rfl
    rw [hid]
    simpa using pairwise_le_range' _ _

/-! ### Event classification and exit analysis of the phases -/

/-- Events the network phase can record. -/
def isNetworkEvent : Event → Bool
  | .progress _ _ _ => true
  | .ensureNetwork _ => true
  | _ => false

/-- Events that start a data transfer: a volume stream sync or the image tar
transfer. -/
def isTransferEvent : Event → Bool
  | .syncVolume _ => true
  | .transferImage _ => true
  | _ => false

/-- Volume stream synchronizer invocations. -/
def isSyncVolumeEvent : Event → Bool
  | .syncVolume _ => true
  | _ => false

/-- A phase only appends events satisfying `P`. -/
def EventsSpec (P : Event → Bool) (st st' : St) : Prop :=
  ∃ d, st'.events = st.events ++ d ∧ ∀ e ∈ d, P e = true

theorem EventsSpec_self (P : Event → Bool) (st : St) : EventsSpec P st st :=
  ⟨[], by simp, by simp⟩

theorem EventsSpec_trans {P : Event → Bool} {st1 st2 st3 : St}
    (h1 : EventsSpec P st1 st2) (h2 : EventsSpec P st2 st3) : EventsSpec P st1 st3 := by
  obtain ⟨d1, hd1, hp1⟩ := h1
  obtain ⟨d2, hd2, hp2⟩ := h2
  refine ⟨d1 ++ d2, by rw [hd2, hd1, List.append_assoc], ?_⟩
  intro e he
  rcases List.mem_append.mp he with h | h
  · exact hp1 e h
  · exact hp2 e h

theorem EventsSpec_before {P : Event → Bool} {st2 st3 : St} (h2 : EventsSpec P st2 st3)
    {st1 : St} (h1 : EventsSpec P st1 st2) : EventsSpec P st1 st3 :=
  EventsSpec_trans h1 h2

theorem EventsSpec_addLog (P : Event → Bool) (m : String) (st : St) :
    EventsSpec P st (addLog m st) :=
  ⟨[], by simp [addLog], by simp⟩

theorem EventsSpec_report (P : Event → Bool) (T : Nat) (m : String) (st : St)
    (h : P (.progress (st.current + 1) (max T 1) m) = true) :
    EventsSpec P st (reportProgress T m st) :=
  ⟨[.progress (st.current + 1) (max T 1) m], rfl, by simpa using h⟩

theorem EventsSpec_emit (P : Event → Bool) (e : Event) (st : St) (h : P e = true) :
    EventsSpec P st (emit e st) :=
  ⟨[e], rfl, by simpa using h⟩

/-- The network phase only records progress and network-creation events. -/
theorem networkPhase_events (env : Env) (T : Nat) (l : List String) (st : St) :
    EventsSpec isNetworkEvent st (networkPhase env T l st).1 := by
  induction l generalizing st with
  | nil => exact EventsSpec_self _ st
  | cons n rest ih =>
    simp only [networkPhase]
    split
    · exact EventsSpec_before (ih _) (EventsSpec_addLog _ _ _)
    · split
      · apply EventsSpec_before (ih _)
        apply EventsSpec_before (EventsSpec_emit _ _ _ rfl)
        apply EventsSpec_before (EventsSpec_addLog _ _ _)
        exact EventsSpec_report _ T _ _ rfl
      · apply EventsSpec_before (EventsSpec_emit _ _ _ rfl)
        apply EventsSpec_before (EventsSpec_addLog _ _ _)
        exact EventsSpec_report _ T _ _ rfl

/-- The network phase either falls through or throws; it never `return`s. -/
theorem networkPhase_exits (env : Env) (T : Nat) (l : List String) (st : St) :
    (networkPhase env T l st).2 = Exit.normal
      ∨ ∃ e, (networkPhase env T l st).2 = Exit.thrown e := by
  induction l generalizing st with
  | nil => exact Or.inl rfl
  | cons n rest ih =>
    simp only [networkPhase]
    split
    · exact ih _
    · split
      · exact ih _
      · exact Or.inr ⟨_, rfl⟩

/-- The volume phase either falls through or throws; it never `return`s. -/
theorem volumePhase_exits (env : Env) (T : Nat) (l : List String) (st : St) :
    (volumePhase env T l st).2 = Exit.normal
      ∨ ∃ e, (volumePhase env T l st).2 = Exit.thrown e := by
  induction l generalizing st with
  | nil => exact Or.inl rfl
  | cons v rest ih =>
    simp only [volumePhase]
    split
    · exact Or.inr ⟨_, rfl⟩
    · split
      · exact Or.inr ⟨_, rfl⟩
      · exact ih _

/-- When every network-creation command resolves, the network phase falls
through. -/
theorem networkPhase_ok (env : Env) (T : Nat) (l : List String) (st : St)
    (h : ∀ n ∈ l, env.ensureNetwork n = Except.ok ()) :
    (networkPhase env T l st).2 = Exit.normal := by
  induction l generalizing st with
  | nil => rfl
  | cons n rest ih =>
    simp only [networkPhase]
    split
    · exact ih _ (fun m hm => h m (List.mem_cons_of_mem n hm))
    · rw [h n (List.mem_cons_self n rest)]
      exact ih _ (fun m hm => h m (List.mem_cons_of_mem n hm))

/-- Short-circuiting equations for `stepPhase` and `finalizeMigration`. -/
theorem stepPhase_of_normal (f : St → St × Exit) (out : St × Exit)
    (h : out.2 = Exit.normal) : stepPhase f out = f out.1 := by
  rcases out with ⟨s, x⟩
  cases x <;> simp_all [stepPhase]

theorem stepPhase_of_thrown (f : St → St × Exit) (out : St × Exit) (e : String)
    (h : out.2 = Exit.thrown e) : stepPhase f out = out := by
  rcases out with ⟨s, x⟩
  cases x <;> simp_all [stepPhase]

theorem stepPhase_of_returned (f : St → St × Exit) (out : St × Exit) (r : MigrationResult)
    (h : out.2 = Exit.returned r) : stepPhase f out = out := by
  rcases out with ⟨s, x⟩
  cases x <;> simp_all [stepPhase]

theorem finalizeMigration_of_thrown (options : MigrationOptions) (out : St × Exit) (e : String)
    (h : out.2 = Exit.thrown e) : (finalizeMigration options out).2 = Except.error e := by
  rcases out with ⟨s, x⟩
  cases x <;> simp_all [finalizeMigration]

theorem finalizeMigration_of_returned (options : MigrationOptions) (out : St × Exit)
    (r : MigrationResult) (h : out.2 = Exit.returned r) :
    (finalizeMigration options out).2 = Except.ok r := by
  rcases out with ⟨s, x⟩
  cases x <;> simp_all [finalizeMigration]

/-- The guarded network phase with all creations resolving falls through. -/
theorem networkPhaseGuard_ok (env : Env) (T : Nat) (sel : MigrationSelection)
    (opts : MigrationOptions) (st : St)
    (h : ∀ n ∈ sel.networks, env.ensureNetwork n = Except.ok ()) :
    (networkPhaseGuard env T sel opts st).2 = Exit.normal := by
  unfold networkPhaseGuard
  split
  · exact networkPhase_ok env T sel.networks st h
  · rfl

/-- The guarded network phase's trace consists of network events only. -/
theorem networkPhaseGuard_events (env : Env) (T : Nat) (sel : MigrationSelection)
    (opts : MigrationOptions) (st : St) :
    EventsSpec isNetworkEvent st (networkPhaseGuard env T sel opts st).1 := by
  unfold networkPhaseGuard
  split
  · exact networkPhase_events env T sel.networks st
  · exact EventsSpec_self _ st

/-- The guarded network phase never `return`s. -/
theorem networkPhaseGuard_exits (env : Env) (T : Nat) (sel : MigrationSelection)
    (opts : MigrationOptions) (st : St) :
    (networkPhaseGuard env T sel opts st).2 = Exit.normal
      ∨ ∃ e, (networkPhaseGuard env T sel opts st).2 = Exit.thrown e := by
  unfold networkPhaseGuard
  split
  · exact networkPhase_exits env T sel.networks st
  · exact Or.inl rfl

/-- With a local source, the guarded volume phase never `return`s. -/
theorem volumePhaseGuard_exits (env : Env) (source : HostConfig) (T : Nat)
    (sel : MigrationSelection) (opts : MigrationOptions) (st : St)
    (hlocal : isRemoteHost source = false) :
    (volumePhaseGuard env source T sel opts st).2 = Exit.normal
      ∨ ∃ e, (volumePhaseGuard env source T sel opts st).2 = Exit.thrown e := by
  unfold volumePhaseGuard
  split
  · rw [if_neg (by simp [hlocal])]
    exact volumePhase_exits env T sel.volumes st
  · exact Or.inl rfl

/-! ### Concrete hosts and environments for the closed instances -/

/-- A local host configuration: no address, no user. -/
def localHost : HostConfig := ⟨none, none, none, none⟩

/-- A remote host configuration: address and user both present. -/
def remoteHost1 : HostConfig := ⟨some "h", some "u", none, none⟩

/-- An oracle in which every external command resolves. -/
def envAllOk : Env :=
  ⟨fun _ => .ok (), fun _ => .ok (), fun _ => .ok (), fun _ => .ok "[]",
   fun _ => .ok [], fun _ => .ok (), fun _ => .ok (), fun _ => .ok (),
   fun _ => .ok (), fun _ => .ok (), fun _ => .ok "[]", 0, "/tmp"⟩

/-- An oracle in which only the stream sync of volume `appdata` rejects. -/
def envSyncFails : Env :=
  { envAllOk with syncVolume := fun v => if v = "appdata" then .error "tar failed" else .ok () }

/-- An oracle in which every network creation rejects. -/
def envNetFails : Env :=
  { envAllOk with ensureNetwork := fun _ => .error "network create failed" }

/-! ### C6: remote source fails fast without any transfer -/

/-- C6 counterexample: with a remote source and volumes included, but a
network creation failing before the volume guard is reached, `runMigration`
rejects with that process error instead of returning an `ok:false`
`MigrationResult` — so the claim's unconditional quantification over every
such execution fails. -/
theorem remote_source_network_failure_rejects :
    (runMigration envNetFails remoteHost1 localHost ⟨[], ["v"], ["appnet"]⟩
      ⟨false, true, true, false⟩).2 = Except.error "network create failed" ∧
    ∀ r, (runMigration envNetFails remoteHost1 localHost ⟨[], ["v"], ["appnet"]⟩
      ⟨false, true, true, false⟩).2 ≠ Except.ok r := by
  refine ⟨by decide, ?_⟩
  intro r h
  rw [show (runMigration envNetFails remoteHost1 localHost ⟨[], ["v"], ["appnet"]⟩
      ⟨false, true, true, false⟩).2 = Except.error "network create failed" from by decide] at h
  cases h

/-- C6 amended: when the source host is remote, the options include volumes
or containers, and the preceding network phase completes without a process
failure (`hnet`), `runMigration` returns `ok:false` with one of the two
explanatory messages and exactly the logs accumulated so far (the logs of
the state the network phase produced), and no transfer mechanism (volume
stream sync or image tar transfer) is started. -/
theorem remote_source_fails_fast (env : Env) (source target : HostConfig)
    (sel : MigrationSelection) (opts : MigrationOptions)
    (hr : isRemoteHost source = true)
    (hinc : opts.includeVolumes = true ∨ opts.includeContainers = true)
    (hnet : ∀ n ∈ sel.networks, env.ensureNetwork n = Except.ok ()) :
    ∃ r, (runMigration env source target sel opts).2 = Except.ok r ∧ r.ok = false ∧
      (r.message
          = "Remote source volume sync is not implemented. Use a local source host for volumes."
        ∨ r.message = "Automated container migration requires a local source host for now.") ∧
      r.logs = (networkPhaseGuard env (migrationTotalSteps sel opts) sel opts
        ⟨0, [], []⟩).1.logs ∧
      ∀ e ∈ (runMigration env source target sel opts).1, isTransferEvent e = false := by
  have hx1 := networkPhaseGuard_ok env (migrationTotalSteps sel opts) sel opts
    ⟨0, [], []⟩ hnet
  have hev1 := networkPhaseGuard_events env (migrationTotalSteps sel opts) sel opts
    ⟨0, [], []⟩
  obtain ⟨d, hd1, hd2⟩ := hev1
  have htrans : ∀ e ∈ (networkPhaseGuard env (migrationTotalSteps sel opts) sel opts
      ⟨0, [], []⟩).1.events, isTransferEvent e = false := by
    intro e he
    rw [hd1] at he
    simp only [List.nil_append] at he
    have := hd2 e he
    cases e <;> simp_all [isNetworkEvent, isTransferEvent]
  unfold runMigration migrationPipeline
  rw [stepPhase_of_normal _ _ hx1]
  by_cases hv : opts.includeVolumes = true
  · have hVG : volumePhaseGuard env source (migrationTotalSteps sel opts) sel opts
        (networkPhaseGuard env (migrationTotalSteps sel opts) sel opts ⟨0, [], []⟩).1
        = ((networkPhaseGuard env (migrationTotalSteps sel opts) sel opts ⟨0, [], []⟩).1,
           Exit.returned ⟨false,
             "Remote source volume sync is not implemented. Use a local source host for volumes.",
             (networkPhaseGuard env (migrationTotalSteps sel opts) sel opts ⟨0, [], []⟩).1.logs⟩) := by
      unfold volumePhaseGuard
      rw [if_pos hv, if_pos hr]
    rw [hVG]
    simp only [stepPhase, finalizeMigration]
    exact ⟨_, rfl, rfl, Or.inl rfl, rfl, htrans⟩
  · have hc : opts.includeContainers = true := hinc.resolve_left hv
    have hVG : volumePhaseGuard env source (migrationTotalSteps sel opts) sel opts
        (networkPhaseGuard env (migrationTotalSteps sel opts) sel opts ⟨0, [], []⟩).1
        = ((networkPhaseGuard env (migrationTotalSteps sel opts) sel opts ⟨0, [], []⟩).1,
           Exit.normal) := by
      unfold volumePhaseGuard
      rw [if_neg hv]
    rw [hVG]
    simp only [stepPhase]
    have hCG : containerPhaseGuard env source target (migrationTotalSteps sel opts) sel opts
        (networkPhaseGuard env (migrationTotalSteps sel opts) sel opts ⟨0, [], []⟩).1
        = ((networkPhaseGuard env (migrationTotalSteps sel opts) sel opts ⟨0, [], []⟩).1,
           Exit.returned ⟨false,
             "Automated container migration requires a local source host for now.",
             (networkPhaseGuard env (migrationTotalSteps sel opts) sel opts ⟨0, [], []⟩).1.logs⟩) := by
      unfold containerPhaseGuard containerPhase
      rw [if_pos hc, if_pos hr]
    rw [hCG]
    simp only [stepPhase, finalizeMigration]
    exact ⟨_, rfl, rfl, Or.inr rfl, rfl, htrans⟩

/-- Witness for C6's amended claim: a remote source with a volume selection
returns the volume-phase refusal, carrying the accumulated logs, without
starting any transfer. -/
theorem remote_source_fails_fast_witness :
    ∃ r, (runMigration envAllOk remoteHost1 localHost ⟨[], ["v"], []⟩
        ⟨false, true, false, false⟩).2 = Except.ok r ∧ r.ok = false ∧
      (r.message
          = "Remote source volume sync is not implemented. Use a local source host for volumes."
        ∨ r.message = "Automated container migration requires a local source host for now.") ∧
      r.logs = (networkPhaseGuard envAllOk
        (migrationTotalSteps ⟨[], ["v"], []⟩ ⟨false, true, false, false⟩)
        ⟨[], ["v"], []⟩ ⟨false, true, false, false⟩ ⟨0, [], []⟩).1.logs ∧
      ∀ e ∈ (runMigration envAllOk remoteHost1 localHost ⟨[], ["v"], []⟩
        ⟨false, true, false, false⟩).1, isTransferEvent e = false :=
  remote_source_fails_fast envAllOk remoteHost1 localHost ⟨[], ["v"], []⟩
    ⟨false, true, false, false⟩ (by decide) (Or.inl rfl)
    (fun n hn => absurd hn (List.not_mem_nil n))

/-! ### C1: a volume stream sync failure inside the volume phase -/

/-- When the synchronizer rejects at volume `v` (after `vs₁` succeed), the
volume phase throws that error, and its sync invocations are exactly the
successful ones followed by the failing one — the remaining volumes are
never attempted. -/
theorem volumePhase_fail (env : Env) (T : Nat) (vs₁ vs₂ : List String) (v e : String)
    (st : St)
    (hpre : ∀ w ∈ vs₁, env.ensureVolume w = Except.ok () ∧ env.syncVolume w = Except.ok ())
    (hev : env.ensureVolume v = Except.ok ())
    (hfail : env.syncVolume v = Except.error e) :
    (volumePhase env T (vs₁ ++ v :: vs₂) st).2 = Exit.thrown e ∧
    ∃ d, (volumePhase env T (vs₁ ++ v :: vs₂) st).1.events = st.events ++ d ∧
      d.filter isSyncVolumeEvent
        = vs₁.map Event.syncVolume ++ [Event.syncVolume v] := by
  induction vs₁ generalizing st with
  | nil =>
    simp only [List.nil_append, volumePhase, hev, hfail]
    refine ⟨by trivial, ⟨[Event.progress (st.current + 1) (max T 1)
        ("Syncing volume " ++ v ++ " to target"),
      Event.ensureVolume v, Event.syncVolume v], ?_, ?_⟩⟩
    · simp [reportProgress, addLog, emit]
    · simp [List.filter, isSyncVolumeEvent]
  | cons w rest ih =>
    have hw := hpre w (List.mem_cons_self w _)
    simp only [List.cons_append, volumePhase, hw.1, hw.2, List.append_eq]
    obtain ⟨hexit, d, hd1, hd2⟩ :=
      ih (emit (Event.syncVolume w)
          (addLog "Syncing volume data via helper container stream."
            (emit (Event.ensureVolume w)
              (addLog ("Preparing volume " ++ w ++ " on target")
                (reportProgress T ("Syncing volume " ++ w ++ " to target") st)))))
        (fun x hx => hpre x (List.mem_cons_of_mem w hx))
    refine ⟨hexit, ⟨[Event.progress (st.current + 1) (max T 1)
        ("Syncing volume " ++ w ++ " to target"),
      Event.ensureVolume w, Event.syncVolume w] ++ d, ?_, ?_⟩⟩
    · rw [hd1]
      simp [reportProgress, addLog, emit]
    · rw [List.filter_append, hd2]
      simp [List.filter, isSyncVolumeEvent]

/-- C1 counterexample: at a concrete input whose synchronizer rejects,
`runMigration` does not return a `MigrationResult` at all — the rejection
propagates as an unstructured error — and the remaining volume is never
synced. -/
theorem volume_sync_failure_rejects :
    (runMigration envSyncFails localHost localHost ⟨[], ["appdata", "logs"], []⟩
      ⟨false, true, false, false⟩).2 = Except.error "tar failed" ∧
    (∀ r, (runMigration envSyncFails localHost localHost ⟨[], ["appdata", "logs"], []⟩
      ⟨false, true, false, false⟩).2 ≠ Except.ok r) ∧
    Event.syncVolume "logs" ∉
      (runMigration envSyncFails localHost localHost ⟨[], ["appdata", "logs"], []⟩
        ⟨false, true, false, false⟩).1 := by
  refine ⟨by decide, ?_, by decide⟩
  intro r h
  rw [show (runMigration envSyncFails localHost localHost ⟨[], ["appdata", "logs"], []⟩
      ⟨false, true, false, false⟩).2 = Except.error "tar failed" from by decide] at h
  cases h

/-- C1 amended: when the synchronizer fails while syncing one of the selected
volumes, `runMigration` aborts the remaining volume phase, but instead of
returning a `MigrationResult` with the partial logs it propagates the
synchronizer's rejection to its caller as an unstructured error. -/
theorem volume_sync_failure_aborts_and_propagates (env : Env) (source target : HostConfig)
    (sel : MigrationSelection) (opts : MigrationOptions) (vs₁ vs₂ : List String)
    (v e : String)
    (hvol : opts.includeVolumes = true)
    (hlocal : isRemoteHost source = false)
    (hnet : ∀ n ∈ sel.networks, env.ensureNetwork n = Except.ok ())
    (hsel : sel.volumes = vs₁ ++ v :: vs₂)
    (hpre : ∀ w ∈ vs₁, env.ensureVolume w = Except.ok () ∧ env.syncVolume w = Except.ok ())
    (hev : env.ensureVolume v = Except.ok ())
    (hfail : env.syncVolume v = Except.error e) :
    (runMigration env source target sel opts).2 = Except.error e ∧
    (runMigration env source target sel opts).1.filter isSyncVolumeEvent
      = vs₁.map Event.syncVolume ++ [Event.syncVolume v] := by
  have hx1 := networkPhaseGuard_ok env (migrationTotalSteps sel opts) sel opts
    ⟨0, [], []⟩ hnet
  obtain ⟨dn, hdn1, hdn2⟩ := networkPhaseGuard_events env (migrationTotalSteps sel opts)
    sel opts ⟨0, [], []⟩
  have hVG : volumePhaseGuard env source (migrationTotalSteps sel opts) sel opts
      (networkPhaseGuard env (migrationTotalSteps sel opts) sel opts ⟨0, [], []⟩).1
      = volumePhase env (migrationTotalSteps sel opts) (vs₁ ++ v :: vs₂)
        (networkPhaseGuard env (migrationTotalSteps sel opts) sel opts ⟨0, [], []⟩).1 := by
    unfold volumePhaseGuard
    rw [if_pos hvol, if_neg (by simp [hlocal]), hsel]
  obtain ⟨hexit, dv, hdv1, hdv2⟩ := volumePhase_fail env (migrationTotalSteps sel opts)
    vs₁ vs₂ v e
    (networkPhaseGuard env (migrationTotalSteps sel opts) sel opts ⟨0, [], []⟩).1
    hpre hev hfail
  unfold runMigration migrationPipeline
  rw [stepPhase_of_normal _ _ hx1, hVG,
    stepPhase_of_thrown _ _ e hexit, stepPhase_of_thrown _ _ e hexit]
  refine ⟨finalizeMigration_of_thrown opts _ e hexit, ?_⟩
  rw [finalizeMigration_events, hdv1, hdn1]
  simp only [List.nil_append, List.filter_append]
  have hdn3 : dn.filter isSyncVolumeEvent = [] := by
    rw [List.filter_eq_nil_iff]
    intro e' he'
    have := hdn2 e' he'
    cases e' <;> simp_all [isNetworkEvent, isSyncVolumeEvent]
  rw [hdn3, hdv2, List.nil_append]

/-- Witness for C1's amended claim: volume `cache` syncs, `appdata` fails,
`logs` is never attempted, and the error propagates out. -/
theorem volume_sync_failure_aborts_and_propagates_witness :
    (runMigration envSyncFails localHost localHost ⟨[], ["cache", "appdata", "logs"], []⟩
      ⟨false, true, false, false⟩).2 = Except.error "tar failed" ∧
    (runMigration envSyncFails localHost localHost ⟨[], ["cache", "appdata", "logs"], []⟩
      ⟨false, true, false, false⟩).1.filter isSyncVolumeEvent
      = ["cache"].map Event.syncVolume ++ [Event.syncVolume "appdata"] :=
  volume_sync_failure_aborts_and_propagates envSyncFails localHost localHost
    ⟨[], ["cache", "appdata", "logs"], []⟩ ⟨false, true, false, false⟩
    ["cache"] ["logs"] "appdata" "tar failed" rfl (by decide)
    (fun n hn => absurd hn (List.not_mem_nil n)) rfl (by decide) (by decide) (by decide)

/-! ### C10: empty container selection with containers included -/

/-- C10: with containers included, a local source and an empty selected
container list, the batch inspection call returns the empty string without
running a command, JSON-parsing it throws, and `runMigration` fails with an
unstructured error instead of completing with `ok:true` — whatever the
outcome of the earlier phases. -/
theorem empty_container_selection_throws (env : Env) (source target : HostConfig)
    (sel : MigrationSelection) (opts : MigrationOptions)
    (hc : opts.includeContainers = true)
    (hlocal : isRemoteHost source = false)
    (hempty : sel.containers = []) :
    inspectContainers env sel.containers = Except.ok "" ∧
    ∃ e, (runMigration env source target sel opts).2 = Except.error e := by
  refine ⟨by rw [hempty]; rfl, ?_⟩
  have hcp : ∀ st : St, (containerPhaseGuard env source target
      (migrationTotalSteps sel opts) sel opts st).2
      = Exit.thrown "Unexpected end of JSON input" := by
    intro st
    unfold containerPhaseGuard containerPhase
    rw [if_pos hc, if_neg (by simp [hlocal]), hempty]
    rfl
  unfold runMigration migrationPipeline
  rcases networkPhaseGuard_exits env (migrationTotalSteps sel opts) sel opts ⟨0, [], []⟩
    with hn | ⟨e1, hn⟩
  · rw [stepPhase_of_normal _ _ hn]
    rcases volumePhaseGuard_exits env source (migrationTotalSteps sel opts) sel opts
      (networkPhaseGuard env (migrationTotalSteps sel opts) sel opts ⟨0, [], []⟩).1 hlocal
      with hvn | ⟨e2, hvn⟩
    · rw [stepPhase_of_normal _ _ hvn, stepPhase_of_thrown _ _ _ (hcp _)]
      exact ⟨_, finalizeMigration_of_thrown opts _ _ (hcp _)⟩
    · rw [stepPhase_of_thrown _ _ _ hvn, stepPhase_of_thrown _ _ _ hvn]
      exact ⟨_, finalizeMigration_of_thrown opts _ _ hvn⟩
  · rw [stepPhase_of_thrown _ _ _ hn, stepPhase_of_thrown _ _ _ hn,
      stepPhase_of_thrown _ _ _ hn]
    exact ⟨_, finalizeMigration_of_thrown opts _ _ hn⟩

/-- Witness for C10 at a concrete all-resolving environment. -/
theorem empty_container_selection_throws_witness :
    inspectContainers envAllOk ([] : List String) = Except.ok "" ∧
    ∃ e, (runMigration envAllOk localHost localHost ⟨[], [], []⟩
      ⟨true, false, false, false⟩).2 = Except.error e :=
  empty_container_selection_throws envAllOk localHost localHost ⟨[], [], []⟩
    ⟨true, false, false, false⟩ rfl rfl rfl

/-- Witness for C5's per-update bounds at the first update of a one-volume
execution. -/
theorem progress_total_and_monotonicity_witness :
    ((1, 1) : Nat × Nat).2
      = max (migrationTotalSteps ⟨[], ["v1"], []⟩ ⟨false, true, false, false⟩) 1 ∧
    ((1, 1) : Nat × Nat).1
      ≤ max (migrationTotalSteps ⟨[], ["v1"], []⟩ ⟨false, true, false, false⟩) 1 :=
  (progress_total_and_monotonicity envAllOk localHost localHost ⟨[], ["v1"], []⟩
    ⟨false, true, false, false⟩).2.2.1 (1, 1) (by decide)

end DockerCopy
